import Mathlib

/-!
Verification of the intervals-mcp-server repository.

This file embeds the request/format core of the repository
(`src/intervals_mcp_server/utils/formatting.py` and
`src/intervals_mcp_server/server.py`) as executable Lean definitions and
proves properties of the embedding.

Conventions of the embedding:
* JSON-ish Python values are modelled by `Icu.Val`; Python `None` is
  `Val.vNull`.  Python dicts are insertion-ordered association lists.
* Python floats are modelled as exact rationals.  The repository only ever
  divides `sleepSecs` by 3600, where exactness agrees with binary floats on
  the inputs our theorems use; the shortest-round-trip repr of
  non-terminating binary floats is not modelled precisely (and is not
  exercised by any theorem below).
* Code that can raise returns `Except PyExc _`; exceptions that the source
  catches are handled exactly where the source catches them.
-/

set_option autoImplicit false

namespace Icu

/-- A Python/JSON value as handled by the formatters and tool handlers. -/
inductive Val where
  | vNull
  | vBool (b : Bool)
  | vInt (n : Int)
  | vFloat (q : ℚ)
  | vStr (s : String)
  | vList (xs : List Val)
  | vDict (entries : List (String × Val))

/-- A Python dict: an insertion-ordered association list. -/
abbrev Dict := List (String × Val)

/-- `v is None` in Python. -/
def Val.isNull : Val → Bool
  | .vNull => true
  | _ => false

/-- `isinstance(v, dict)` in Python. -/
def Val.isDict : Val → Bool
  | .vDict _ => true
  | _ => false

/-- `isinstance(v, list)` in Python. -/
def Val.isList : Val → Bool
  | .vList _ => true
  | _ => false

/-- Python truthiness of a value. -/
def Val.truthy : Val → Bool
  | .vNull => false
  | .vBool b => b
  | .vInt n => n != 0
  | .vFloat q => q != 0
  | .vStr s => !s.isEmpty
  | .vList xs => !xs.isEmpty
  | .vDict es => !es.isEmpty

/-- `d.get(k)` without a default: the first binding of `k`, if any. -/
def dictGet (d : Dict) (k : String) : Option Val :=
  match d.find? (fun p => p.1 == k) with
  | some p => some p.2
  | none => none

/-- `d.get(k, v0)`. -/
def dictGetD (d : Dict) (k : String) (v0 : Val) : Val :=
  match dictGet d k with
  | some v => v
  | none => v0

/-- `k in d` for a Python dict. -/
def dictHasKey (d : Dict) (k : String) : Bool :=
  (dictGet d k).isSome

/-- `d[k] = v`: replace an existing binding in place, else append. -/
def dictSet (d : Dict) (k : String) (v : Val) : Dict :=
  if dictHasKey d k then d.map (fun p => if p.1 == k then (k, v) else p)
  else d ++ [(k, v)]

/-- `del d[k]` (removing every binding of `k`). -/
def dictErase (d : Dict) (k : String) : Dict :=
  d.filter (fun p => p.1 != k)

/-- `Section.process_data`: copy a dict, dropping `None`-valued entries
(formatting.py:44-48). -/
def stripNone (d : Dict) : Dict :=
  d.filter (fun p => !p.2.isNull)

/-- Python `{**a, **b}`: keys of `a` keep their position (with the value
from `b` when `b` also binds them); keys only in `b` are appended in
`b`-order. -/
def dictMerge (a b : Dict) : Dict :=
  a.map (fun p =>
    match dictGet b p.1 with
    | some v => (p.1, v)
    | none => p) ++
  b.filter (fun p => !dictHasKey a p.1)

/-- Left-pad the decimal rendering of `n` with zeros to width `w`. -/
def padNum (w n : Nat) : String :=
  let s := toString n
  String.mk (List.replicate (w - s.length) (Char.ofNat 48)) ++ s

/-- Render a Python float.  Integral values render as `n.0` exactly as
Python does; other values are rendered as a (possibly truncated) decimal
expansion of the exact rational.  No theorem below depends on the
non-integral branch. -/
def floatRepr (q : ℚ) : String :=
  if q.den = 1 then toString q.num ++ ".0"
  else
    let sgn := if q < 0 then "-" else ""
    let a : ℚ := |q|
    let ip : Nat := (Rat.floor a).toNat
    let fracScaled : Nat := (Rat.floor ((a - (ip : ℚ)) * ((10 : ℚ) ^ 17))).toNat
    let fracDigits := (padNum 17 fracScaled).dropRightWhile (fun c => c == Char.ofNat 48)
    sgn ++ toString ip ++ "." ++ (if fracDigits.isEmpty then "0" else fracDigits)

mutual

/-- Python `str(v)`. -/
def pyStr : Val → String
  | .vNull => "None"
  | .vBool b => if b then "True" else "False"
  | .vInt n => toString n
  | .vFloat q => floatRepr q
  | .vStr s => s
  | .vList xs => "[" ++ pyReprList xs ++ "]"
  | .vDict es => "\x7b" ++ pyReprEntries es ++ "\x7d"

/-- Python `repr(v)` (used when a value appears inside a list/dict). -/
def pyRepr : Val → String
  | .vNull => "None"
  | .vBool b => if b then "True" else "False"
  | .vInt n => toString n
  | .vFloat q => floatRepr q
  | .vStr s => "\x27" ++ s ++ "\x27"
  | .vList xs => "[" ++ pyReprList xs ++ "]"
  | .vDict es => "\x7b" ++ pyReprEntries es ++ "\x7d"

def pyReprList : List Val → String
  | [] => ""
  | [x] => pyRepr x
  | x :: xs => pyRepr x ++ ", " ++ pyReprList xs

def pyReprEntries : List (String × Val) → String
  | [] => ""
  | [(k, v)] => "\x27" ++ k ++ "\x27: " ++ pyRepr v
  | (k, v) :: es => "\x27" ++ k ++ "\x27: " ++ pyRepr v ++ ", " ++ pyReprEntries es

end

/-- Exceptions the embedded code can raise. -/
inductive PyExc where
  | typeError (msg : String)
  | attributeError (msg : String)
  | valueError (msg : String)
  | zeroDivisionError
  | assertionError

/-- Python `/` (true division), as used for `sleepSecs / 3600`. -/
def pyDiv (a b : Val) : Except PyExc Val :=
  match a, b with
  | .vInt x, .vInt y =>
      if y = 0 then .error .zeroDivisionError else .ok (.vFloat ((x : ℚ) / (y : ℚ)))
  | .vInt x, .vFloat y =>
      if y = 0 then .error .zeroDivisionError else .ok (.vFloat ((x : ℚ) / y))
  | .vFloat x, .vInt y =>
      if y = 0 then .error .zeroDivisionError else .ok (.vFloat (x / (y : ℚ)))
  | .vFloat x, .vFloat y =>
      if y = 0 then .error .zeroDivisionError else .ok (.vFloat (x / y))
  | _, _ => .error (.typeError "unsupported operand type for /")

/-- One piece of a pre-parsed `str.format` template: literal text, an
auto-numbered positional field, a named field, or a named field with a
format spec (only `.0f` occurs in the source). -/
inductive FPart where
  | lit (s : String)
  | auto
  | named (key : String)
  | namedSpec (key : String) (spec : String)
  deriving DecidableEq

/-- How a `str.format` call can fail. -/
inductive FmtFail where
  | keyError (k : String)
  | indexError
  | specError

/-- Round to the nearest integer, ties to even, as Python `format(x, '.0f')`
does. -/
def roundHalfEven (q : ℚ) : Int :=
  let f : Int := Rat.floor q
  let r : ℚ := q - (f : ℚ)
  if r < 1 / 2 then f
  else if r > 1 / 2 then f + 1
  else if f % 2 = 0 then f else f + 1

/-- Render one value under a format spec.  Only `.0f` is used by the
source; a non-numeric value raises `ValueError` in Python. -/
def renderSpec (spec : String) (v : Val) : Except FmtFail String :=
  if spec = ".0f" then
    match v with
    | .vInt n => .ok (toString n)
    | .vFloat q => .ok (toString (roundHalfEven q))
    | _ => .error .specError
  else .error .specError

/-- `fmt.format(*args, **ctx)`: fields are resolved left to right, the
first unresolvable field aborts with `IndexError` (positional) or
`KeyError` (named). -/
def pyFormat : List FPart → List Val → Nat → Dict → Except FmtFail String
  | [], _, _, _ => .ok ""
  | .lit s :: rest, args, ai, ctx =>
      match pyFormat rest args ai ctx with
      | .ok t => .ok (s ++ t)
      | .error e => .error e
  | .auto :: rest, args, ai, ctx =>
      match args[ai]? with
      | some v =>
          match pyFormat rest args (ai + 1) ctx with
          | .ok t => .ok (pyStr v ++ t)
          | .error e => .error e
      | none => .error .indexError
  | .named k :: rest, args, ai, ctx =>
      match dictGet ctx k with
      | some v =>
          match pyFormat rest args ai ctx with
          | .ok t => .ok (pyStr v ++ t)
          | .error e => .error e
      | none => .error (.keyError k)
  | .namedSpec k spec :: rest, args, ai, ctx =>
      match dictGet ctx k with
      | some v =>
          match renderSpec spec v with
          | .ok r =>
              match pyFormat rest args ai ctx with
              | .ok t => .ok (r ++ t)
              | .error e => .error e
          | .error e => .error e
      | none => .error (.keyError k)

/-- The `indent` argument of `Section.__init__` (`int | str`). -/
inductive IndentArg where
  | str (s : String)
  | int (n : Nat)

/-- The mutable state of one `Section` (formatting.py:11-113): the line
buffer it writes to, the pending heading lines, the (None-stripped) data
context and the accumulated indent. -/
structure SecSt where
  lines : List String
  headingLines : List String
  data : Dict
  indent : String

/-- `Section.__init__` (formatting.py:18-42).  The blank separator is
queued iff the buffer already has content at construction time; the
heading, if any, is queued with the parent indent. -/
def sectionInit (lines : Option (List String)) (parent : Option SecSt)
    (heading : Option String) (indentArg : IndentArg) (data : Option Dict) : SecSt :=
  let parentIndent := match parent with
    | some p => p.indent
    | none => ""
  let indent0 := match indentArg with
    | .str s => s
    | .int n => String.mk (List.replicate n (Char.ofNat 32))
  let lines0 := match lines with
    | some ls => ls
    | none => []
  let hl :=
    (if lines0.length > 0 then [""] else []) ++
    (match heading with
     | some h => [parentIndent ++ h]
     | none => [])
  ⟨lines0, hl, stripNone (match data with | some d => d | none => []), parentIndent ++ indent0⟩

/-- `Section.append_lines` (formatting.py:59-64). -/
def SecSt.appendLines (s : SecSt) (ls : List String) : SecSt :=
  if ls.length > 0 then ⟨s.lines ++ s.headingLines ++ ls, [], s.data, s.indent⟩
  else s

/-- The first fallback key whose value resolves non-`None`
(formatting.py:74-79). -/
def firstHit (data : Dict) : List String → Option Val
  | [] => none
  | k :: ks =>
      match dictGet data k with
      | some v => if v.isNull then firstHit data ks else some v
      | none => firstHit data ks

/-- The `while True` retry loop of `Section.append` (formatting.py:92-107):
on `KeyError` with a `none_val`, the missing key is filled and the format
retried; on `IndexError` with a `none_val` and no positional argument,
`none_val` is supplied; otherwise the append is abandoned (`.ok none`).
Each retry resolves one distinct failure, so `fmt.length + 2` iterations of
fuel always suffice. -/
def appendLoop (fmt : List FPart) (noneVal : Val) :
    Nat → List Val → Dict → Dict → Except PyExc (Option String)
  | 0, _, _, _ => .ok none
  | fuel + 1, args, defaults, data =>
      match pyFormat fmt args 0 (dictMerge defaults data) with
      | .ok line => .ok (some line)
      | .error (.keyError k) =>
          if !noneVal.isNull && !dictHasKey data k then
            appendLoop fmt noneVal fuel args defaults (dictSet data k noneVal)
          else .ok none
      | .error .indexError =>
          if !noneVal.isNull && args.length = 0 then
            appendLoop fmt noneVal fuel [noneVal] defaults data
          else .ok none
      | .error .specError => .error (.valueError "Unknown format code for object")

/-- The merged data context of one `Section.append` call
(formatting.py:71): `{**self.data, **self.process_data(data), **kwargs}`. -/
def appendData (s : SecSt) (dataArg : Option Dict) (kwargs : Dict) : Dict :=
  dictMerge (dictMerge s.data (stripNone (dataArg.getD []))) kwargs

/-- The `kwargs["value"]` resolution of `Section.append`
(formatting.py:72-85): the fallback-key hit, then an explicit `value`
argument, then `none_val`. -/
def appendValue (s : SecSt) (valueKey : Option (List String)) (value : Val)
    (dataArg : Option Dict) (noneVal : Val) (kwargs : Dict) : Option Val :=
  let kw0 : Option Val :=
    match dictGet kwargs "value" with
    | some v => if v.isNull then none else some v
    | none => none
  let kw1 : Option Val :=
    match valueKey with
    | none => kw0
    | some keys =>
        match firstHit (appendData s dataArg kwargs) keys with
        | some v => some v
        | none => kw0
  let kw2 : Option Val := if !value.isNull then some value else kw1
  if !noneVal.isNull && kw2.isNone then some noneVal else kw2

/-- The positional arguments of the format call (formatting.py:88-90). -/
def appendArgs (s : SecSt) (valueKey : Option (List String)) (value : Val)
    (dataArg : Option Dict) (noneVal : Val) (kwargs : Dict) : List Val :=
  match appendValue s valueKey value dataArg noneVal kwargs with
  | some v => [v]
  | none => []

/-- `Section.append` (formatting.py:66-113).  Note that the data context
for the format call is merged from the original `kwargs` before the
`value_key`/`value`/`none_val` resolution mutates `kwargs["value"]`, so the
resolved value is only available positionally. -/
def SecSt.append (s : SecSt) (fmt : List FPart) (valueKey : Option (List String))
    (value : Val) (dataArg : Option Dict) (noneVal : Val)
    (defaultsArg : Option Dict) (kwargs : Dict) : Except PyExc SecSt :=
  match appendLoop fmt noneVal (fmt.length + 2)
      (appendArgs s valueKey value dataArg noneVal kwargs)
      (defaultsArg.getD []) (appendData s dataArg kwargs) with
  | .error e => .error e
  | .ok none => .ok s
  | .ok (some line) =>
      .ok ⟨s.lines ++ s.headingLines ++ [s.indent ++ line], [], s.data, s.indent⟩

/-- `Section.append` with all optional arguments left at their defaults. -/
def SecSt.appendF (s : SecSt) (fmt : List FPart) : Except PyExc SecSt :=
  s.append fmt none .vNull none .vNull none []

/-- `Section.__exit__` for a section that has a parent
(formatting.py:53-57): append a blank line to the parent if the parent
already has content, then merge this section's lines into the parent. -/
def sectionExit (child : SecSt) (parent : SecSt) : Except PyExc SecSt :=
  match (if parent.lines.length > 0 then parent.appendF [] else .ok parent) with
  | .error e => .error e
  | .ok p => .ok (p.appendLines child.lines)

/-- Shorthand for a `pre{key}suf` template. -/
def fmtT (pre key suf : String) : List FPart :=
  [.lit pre, .named key, .lit suf]

/-- Iterating a Python value (`for x in v`): lists yield elements, strings
yield characters, dicts yield keys; anything else raises `TypeError`. -/
def pyIterE : Val → Except PyExc (List Val)
  | .vList xs => .ok xs
  | .vStr s => .ok (s.toList.map (fun c => .vStr (String.mk [c])))
  | .vDict es => .ok (es.map (fun p => .vStr p.1))
  | _ => .error (.typeError "object is not iterable")

/-- Accessing `.items()` on a non-dict raises `AttributeError`. -/
def asDict : Val → Except PyExc Dict
  | .vDict d => .ok d
  | _ => .error (.attributeError "object has no attribute items")

/-- `enumerate(xs, 1)`. -/
def enumerate1 (xs : List Val) : List (Nat × Val) :=
  xs.enum.map (fun p => (p.1 + 1, p.2))

/-!  Date utilities.

`datetime` arithmetic from the source is modelled on the proleptic
Gregorian calendar via the standard civil-from-days conversion, counting
days from 0000-03-01. -/

def isLeap (y : Nat) : Bool :=
  (y % 4 = 0 && y % 100 != 0) || y % 400 = 0

def daysInMonth (y m : Nat) : Nat :=
  if m = 2 then (if isLeap y then 29 else 28)
  else if m = 4 || m = 6 || m = 9 || m = 11 then 30
  else 31

/-- `"-".split` on a character list (the `-`-separated fields of a date
string). -/
def splitDash : List Char → List (List Char)
  | [] => [[]]
  | c :: cs =>
      let r := splitDash cs
      if c = '-' then [] :: r
      else match r with
        | [] => [[c]]
        | x :: xs => (c :: x) :: xs

def digitsToNatAux : List Char → Nat → Option Nat
  | [], acc => some acc
  | c :: cs, acc => if c.isDigit then digitsToNatAux cs (acc * 10 + (c.toNat - 48)) else none

/-- The numeric value of a nonempty all-digit field, `none` otherwise. -/
def digitsToNat : List Char → Option Nat
  | [] => none
  | cs => digitsToNatAux cs 0

/-- Parse a `YYYY-MM-DD` string, validating the calendar date exactly as
`datetime.fromisoformat`/`strptime` do.  Returns `none` where Python
raises `ValueError`. -/
def parseDate (s : String) : Option (Nat × Nat × Nat) :=
  match splitDash s.toList with
  | [ys, ms, ds] =>
      if ys.length = 4 && ms.length = 2 && ds.length = 2 then
        match digitsToNat ys, digitsToNat ms, digitsToNat ds with
        | some y, some m, some d =>
            if 1 ≤ y && 1 ≤ m && m ≤ 12 && 1 ≤ d && d ≤ daysInMonth y m then
              some (y, m, d)
            else none
        | _, _, _ => none
      else none
  | _ => none

/-- Days since 0000-03-01 of a civil date (Hinnant's algorithm). -/
def daysFromCivil (y m d : Nat) : Nat :=
  let yAdj := if m ≤ 2 then y - 1 else y
  let era := yAdj / 400
  let yoe := yAdj - era * 400
  let mp := (m + 9) % 12
  let doy := (153 * mp + 2) / 5 + d - 1
  let doe := yoe * 365 + yoe / 4 - yoe / 100 + doy
  era * 146097 + doe

/-- Civil date of a day count (inverse of `daysFromCivil`). -/
def civilFromDays (g : Nat) : Nat × Nat × Nat :=
  let era := g / 146097
  let doe := g % 146097
  let yoe := (doe - doe / 1460 + doe / 36524 - doe / 146096) / 365
  let y0 := yoe + era * 400
  let doy := doe - (365 * yoe + yoe / 4 - yoe / 100)
  let mp := (5 * doy + 2) / 153
  let d := doy - (153 * mp + 2) / 5 + 1
  let m := if mp < 10 then mp + 3 else mp - 9
  (if m ≤ 2 then y0 + 1 else y0, m, d)

/-- `strftime("%Y-%m-%d")`. -/
def dateToStr (ymd : Nat × Nat × Nat) : String :=
  padNum 4 ymd.1 ++ "-" ++ padNum 2 ymd.2.1 ++ "-" ++ padNum 2 ymd.2.2

/-- Lexicographic `<` on strings, as Python compares date strings. -/
def charListLt : List Char → List Char → Bool
  | [], [] => false
  | [], _ :: _ => true
  | _ :: _, [] => false
  | a :: as, b :: bs => if a < b then true else if b < a then false else charListLt as bs

/-- Python `a >= b` on strings. -/
def strGe (a b : String) : Bool :=
  !charListLt a.toList b.toList

/-- `datetime.fromisoformat` followed by `strftime("%Y-%m-%d %H:%M:%S")`,
for the subset of ISO strings the activity formatter reformats: a valid
date, a `T` or space separator, `HH:MM:SS`, and an optional `±HH:MM`
offset.  Returns `none` where parsing fails (the source catches the
`ValueError` and keeps the raw string). -/
def reformatIso (s : String) : Option String :=
  if s.length < 11 then none
  else
    let datePart := s.take 10
    match parseDate datePart with
    | none => none
    | some _ =>
        let sep := (s.drop 10).take 1
        if sep ≠ "T" && sep ≠ " " then none
        else
          let rest := s.drop 11
          let core := rest.take 8
          let tail := rest.drop 8
          let okOffset :=
            tail = "" ||
            (tail.length = 6 && (tail.take 1 = "+" || tail.take 1 = "-") &&
              ((tail.drop 1).take 2).toNat?.isSome && ((tail.drop 1).take 2).length = 2 &&
              (tail.drop 3).take 1 = ":" &&
              ((tail.drop 4).toNat?.isSome && (tail.drop 4).length = 2))
          match core.splitOn ":" with
          | [hh, mm, ss] =>
              if hh.length = 2 && mm.length = 2 && ss.length = 2 then
                match hh.toNat?, mm.toNat?, ss.toNat? with
                | some h, some mi, some sec =>
                    if h ≤ 23 && mi ≤ 59 && sec ≤ 59 && okOffset then
                      some (datePart ++ " " ++ core)
                    else none
                | _, _, _ => none
              else none
          | _ => none

/-!  Entity formatters (formatting.py). -/

/-- `format_activity_summary` (formatting.py:116-193). -/
def format_activity_summary (activity : Dict) : Except PyExc String := do
  let st0 := dictGetD activity "startTime" (dictGetD activity "start_date" (.vStr "Unknown"))
  let start_time : Val :=
    match st0 with
    | .vStr s =>
        if s.length > 10 then
          match reformatIso (s.replace "Z" "+00:00") with
          | some r => .vStr r
          | none => .vStr s
        else .vStr s
    | v => v
  let main := sectionInit (some []) none none (.str "") (some activity)
  let main ← main.appendF (fmtT "Activity: " "name" "")
  let main ← main.appendF (fmtT "ID: " "id" "")
  let main ← main.appendF (fmtT "Type: " "type" "")
  let main ← main.append [.lit "Date: ", .auto] none start_time none .vNull none []
  let main ← main.appendF (fmtT "Description: " "description" "")
  let main ← main.appendF (fmtT "Distance: " "distance" " meters")
  let main ← main.appendF (fmtT "Duration: " "duration" " seconds")
  let main ← main.appendF (fmtT "Moving Time: " "moving_time" " seconds")
  let main ← main.appendF (fmtT "Elevation Gain: " "elevation_gain" " meters")
  let main ← main.appendF (fmtT "Elevation Loss: " "elevation_loss" " meters")
  let ps := sectionInit (some main.lines) none (some "Power Data:") (.str "- ") (some activity)
  let ps ← ps.appendF (fmtT "Average Power: " "avg_power" " W")
  let ps ← ps.appendF (fmtT "Weighted Avg Power: " "weighted_avg_power" " W")
  let ps ← ps.appendF (fmtT "Training Load: " "training_load" "")
  let ps ← ps.appendF (fmtT "FTP: " "ftp" " W")
  let ps ← ps.appendF (fmtT "Kilojoules: " "kilojoules" "")
  let ps ← ps.appendF (fmtT "Intensity: " "intensity" "")
  let ps ← ps.appendF (fmtT "Power:HR Ratio: " "power_hr_ratio" "")
  let ps ← ps.appendF (fmtT "Variability Index: " "variability_index" "")
  let hs := sectionInit (some ps.lines) none (some "Heart Rate Data:") (.str "- ") (some activity)
  let hs ← hs.appendF (fmtT "Average Heart Rate: " "avg_hr" " bpm")
  let hs ← hs.appendF (fmtT "Max Heart Rate: " "max_hr" " bpm")
  let hs ← hs.appendF (fmtT "LTHR: " "lthr" " bpm")
  let hs ← hs.appendF (fmtT "Resting HR: " "resting_hr" " bpm")
  let hs ← hs.appendF (fmtT "Decoupling: " "decoupling" "")
  let os := sectionInit (some hs.lines) none (some "Other Metrics:") (.str "- ") (some activity)
  let os ← os.appendF (fmtT "Cadence: " "cadence" " rpm")
  let os ← os.appendF (fmtT "Calories: " "calories" "")
  let os ← os.appendF (fmtT "Average Speed: " "average_speed" " m/s")
  let os ← os.appendF (fmtT "Max Speed: " "max_speed" " m/s")
  let os ← os.appendF (fmtT "Average Stride: " "average_stride" " m")
  let os ← os.appendF (fmtT "L/R Balance: " "avg_lr_balance" "")
  let os ← os.appendF (fmtT "Weight: " "weight" " kg")
  let os ← os.append (fmtT "RPE: " "value" "/10") (some ["perceived_exertion", "icu_rpe"]) .vNull none .vNull none []
  let os ← os.appendF (fmtT "Session RPE: " "session_rpe" "")
  let os ← os.appendF (fmtT "Feel: " "feel" "/5")
  let es := sectionInit (some os.lines) none (some "Environment:") (.str "- ") (some activity)
  let es ← es.appendF (fmtT "Trainer: " "trainer" "")
  let es ← es.appendF (fmtT "Average Temp: " "average_temp" "°C")
  let es ← es.appendF (fmtT "Min Temp: " "min_temp" "°C")
  let es ← es.appendF (fmtT "Max Temp: " "max_temp" "°C")
  let es ← es.appendF (fmtT "Avg Wind Speed: " "average_wind_speed" " km/h")
  let es ← es.appendF (fmtT "Headwind %: " "headwind_percent" "%")
  let es ← es.appendF (fmtT "Tailwind %: " "tailwind_percent" "%")
  let ts := sectionInit (some es.lines) none (some "Training Metrics:") (.str "- ") (some activity)
  let ts ← ts.appendF (fmtT "Fitness (CTL): " "ctl" "")
  let ts ← ts.appendF (fmtT "Fatigue (ATL): " "atl" "")
  let ts ← ts.appendF (fmtT "TRIMP: " "trimp" "")
  let ts ← ts.appendF (fmtT "Polarization Index: " "polarization_index" "")
  let ts ← ts.appendF (fmtT "Power Load: " "power_load" "")
  let ts ← ts.appendF (fmtT "HR Load: " "hr_load" "")
  let ts ← ts.appendF (fmtT "Pace Load: " "pace_load" "")
  let ts ← ts.appendF (fmtT "Efficiency Factor: " "efficiency_factor" "")
  let ds := sectionInit (some ts.lines) none (some "Device Info:") (.str "- ") (some activity)
  let ds ← ds.appendF (fmtT "Device: " "device_name" "")
  let ds ← ds.appendF (fmtT "Power Meter: " "power_meter" "")
  let ds ← ds.appendF (fmtT "File Type: " "file_type" "")
  pure (String.intercalate "\n" ds.lines)

/-- `format_wellness_entry` (formatting.py:208-279).  Note that the
`sleepHours` entry is added to the caller's dict only after the
Sleep & Recovery section has already copied its data context. -/
def format_wellness_entry (entries : Dict) : Except PyExc String := do
  let main := sectionInit (some []) none (some "Wellness Data:") (.str "") (some entries)
  let main ← main.appendF (fmtT "Date: " "id" "")
  let ms := sectionInit (some main.lines) none (some "Training Metrics:") (.str "- ") (some entries)
  let ms ← ms.appendF (fmtT "Fitness (CTL): " "ctl" "")
  let ms ← ms.appendF (fmtT "Fatigue (ATL): " "atl" "")
  let ms ← ms.appendF (fmtT "Ramp Rate: " "rampRate" "")
  let ms ← ms.appendF (fmtT "CTL Load: " "ctlLoad" "")
  let ms ← ms.appendF (fmtT "ATL Load: " "atlLoad" "")
  let sp := sectionInit (some ms.lines) none (some "Sport-Specific Info:") (.str "- ") (some entries)
  let sp ←
    if (dictGetD entries "sportInfo" .vNull).truthy then do
      let items ← pyIterE (dictGetD entries "sportInfo" (.vList []))
      items.foldlM (fun acc sport =>
        match sport with
        | .vDict spd =>
            acc.append [.named "type", .lit ": eftp = ", .namedSpec "eftp" ".0f", .lit " W"]
              none .vNull (some spd) .vNull none []
        | _ => pure acc) sp
    else pure sp
  let vs := sectionInit (some sp.lines) none (some "Vital Signs:") (.str "- ") (some entries)
  let vs ← vs.appendF (fmtT "Weight: " "weight" " kg")
  let vs ← vs.appendF (fmtT "Resting HR: " "restingHR" " bpm")
  let vs ← vs.appendF (fmtT "HRV: " "hrv" "")
  let vs ← vs.appendF (fmtT "HRV SDNN: " "hrvSDNN" "")
  let vs ← vs.appendF (fmtT "Average Sleeping HR: " "avgSleepingHR" " bpm")
  let vs ← vs.appendF (fmtT "SpO2: " "spO2" "%")
  let vs ← vs.appendF [.lit "Blood Pressure: ", .named "systolic", .lit "/", .named "diastolic", .lit " mmHg"]
  let vs ← vs.appendF (fmtT "Respiration: " "respiration" " breaths/min")
  let vs ← vs.appendF (fmtT "Blood Glucose: " "bloodGlucose" " mmol/L")
  let vs ← vs.appendF (fmtT "Lactate: " "lactate" " mmol/L")
  let vs ← vs.appendF (fmtT "VO2 Max: " "vo2max" " ml/kg/min")
  let vs ← vs.appendF (fmtT "Body Fat: " "bodyFat" "%")
  let vs ← vs.appendF (fmtT "Abdomen: " "abdomen" " cm")
  let vs ← vs.appendF (fmtT "Baevsky Stress Index: " "baevskySI" "")
  let ss := sectionInit (some vs.lines) none (some "Sleep & Recovery:") (.str "- ") (some entries)
  let entries ←
    match dictGet entries "sleepSecs" with
    | some v =>
        if v.isNull then pure entries
        else do
          let h ← pyDiv v (.vInt 3600)
          pure (dictSet entries "sleepHours" h)
    | none => pure entries
  let ss ← ss.appendF (fmtT "Sleep: " "sleepHours" " hours")
  let ss ← ss.appendF (fmtT "Sleep Score: " "sleepScore" "")
  let ss ← ss.appendF (fmtT "Sleep Quality: " "sleepQuality" "/4")
  let ss ← ss.appendF (fmtT "Readiness: " "readiness" "")
  let mn := sectionInit (some ss.lines) none (some "Menstrual Tracking:") (.str "- ") (some entries)
  let mn ← mn.appendF (fmtT "Menstrual Phase: " "menstrualPhase" "")
  let mn ← mn.appendF (fmtT "Predicted Phase: " "menstrualPhasePredicted" "")
  let sf := sectionInit (some mn.lines) none (some "Subjective Feelings:") (.str "- ") (some entries)
  let sf ← sf.appendF (fmtT "Soreness: " "soreness" "/14")
  let sf ← sf.appendF (fmtT "Fatigue: " "fatigue" "/4")
  let sf ← sf.appendF (fmtT "Stress: " "stress" "/4")
  let sf ← sf.appendF (fmtT "Mood: " "mood" "/4")
  let sf ← sf.appendF (fmtT "Motivation: " "motivation" "/4")
  let sf ← sf.appendF (fmtT "Injury: " "injury" "/4")
  let nh := sectionInit (some sf.lines) none (some "Nutrition & Hydration:") (.str "- ") (some entries)
  let nh ← nh.appendF (fmtT "Calories Consumed: " "kcalConsumed" " kcal")
  let nh ← nh.appendF (fmtT "Hydration Volume: " "hydrationVolume" " ml")
  let nh ← nh.appendF (fmtT "Hydration Score: " "hydration" "/4")
  let ac := sectionInit (some nh.lines) none (some "Activity:") (.str "- ") (some entries)
  let ac ← ac.appendF (fmtT "Steps: " "steps" "")
  let cs := sectionInit (some ac.lines) none none (.str "") (some entries)
  let cs ← cs.appendF (fmtT "Comments: " "comments" "")
  let statusVal : Val :=
    if (dictGetD entries "locked" (.vBool false)).truthy then .vStr "Locked" else .vStr "Unlocked"
  let cs ← cs.append [.lit "Status: ", .auto] none statusVal none .vNull none []
  pure (String.intercalate "\n" cs.lines)

/-- The heading of one individual-interval section
(formatting.py:349): an f-string over the raw (un-stripped) entry. -/
def intervalHeading (i : Nat) (interval : Dict) : String :=
  "[" ++ toString i ++ "] " ++
    pyStr (dictGetD interval "label" (.vStr ("Interval " ++ toString i))) ++
    " (" ++ pyStr (dictGetD interval "type" (.vStr "Unknown")) ++ ")"

/-- The duration template shared by interval and group sections. -/
def durationFmt : List FPart :=
  [.lit "Duration: ", .named "elapsed_time", .lit " seconds (moving: ",
   .named "moving_time", .lit " seconds)"]

/-- The Power Metrics sub-section of one interval (formatting.py:354-366). -/
def intervalPowerBlock (sec : SecSt) (d : Dict) : Except PyExc SecSt := do
  let ps := sectionInit none (some sec) (some "Power Metrics:") (.str "") (some d)
  let ps ← ps.append [.lit "Average Power: ", .named "average_watts", .lit " watts (", .named "average_watts_kg", .lit " W/kg)"]
    none .vNull none .vNull (some [("average_watts_kg", .vInt 0)]) []
  let ps ← ps.append [.lit "Max Power: ", .named "max_watts", .lit " watts (", .named "max_watts_kg", .lit " W/kg)"]
    none .vNull none .vNull (some [("max_watts_kg", .vInt 0)]) []
  let ps ← ps.appendF (fmtT "Weighted Avg Power: " "weighted_average_watts" " watts")
  let ps ← ps.appendF (fmtT "Intensity: " "intensity" "")
  let ps ← ps.appendF (fmtT "Training Load: " "training_load" "")
  let ps ← ps.appendF (fmtT "Joules: " "joules" "")
  let ps ← ps.appendF (fmtT "Joules > FTP: " "joules_above_ftp" "")
  let ps ← ps.appendF [.lit "Power Zone: ", .named "zone", .lit " (", .named "zone_min_watts", .lit "-", .named "zone_max_watts", .lit " watts)"]
  let ps ← ps.appendF [.lit "W\x27 Balance: Start ", .named "wbal_start", .lit ", End ", .named "wbal_end"]
  let ps ← ps.appendF (fmtT "L/R Balance: " "avg_lr_balance" "")
  let ps ← ps.appendF (fmtT "Variability: " "w5s_variability" "")
  let ps ← ps.appendF [.lit "Torque: Avg ", .named "average_torque", .lit ", Min ", .named "min_torque", .lit ", Max ", .named "max_torque"]
  sectionExit ps sec

/-- The Heart Rate & Metabolic sub-section of one interval
(formatting.py:368-375). -/
def intervalHrBlock (sec : SecSt) (d : Dict) : Except PyExc SecSt := do
  let hr := sectionInit none (some sec) (some "Heart Rate & Metabolic:") (.str "") (some d)
  let hr ← hr.appendF [.lit "Heart Rate: Avg ", .named "average_heartrate", .lit ", Min ", .named "min_heartrate", .lit ", Max ", .named "max_heartrate", .lit " bpm"]
  let hr ← hr.appendF (fmtT "Decoupling: " "decoupling" "")
  let hr ← hr.appendF (fmtT "DFA α1: " "average_dfa_a1" "")
  let hr ← hr.appendF (fmtT "Respiration: " "average_respiration" " breaths/min")
  let hr ← hr.appendF (fmtT "EPOC: " "average_epoc" "")
  let hr ← hr.appendF [.lit "SmO2: ", .named "average_smo2", .lit "% / ", .named "average_smo2_2", .lit "%"]
  let hr ← hr.appendF [.lit "THb: ", .named "average_thb", .lit "% / ", .named "average_thb_2", .lit "%"]
  sectionExit hr sec

/-- The Speed & Cadence sub-section of one interval
(formatting.py:377-381). -/
def intervalSpeedBlock (sec : SecSt) (d : Dict) : Except PyExc SecSt := do
  let sc := sectionInit none (some sec) (some "Speed & Cadence:") (.str "") (some d)
  let sc ← sc.appendF [.lit "Speed: Avg ", .named "average_speed", .lit ", Min ", .named "min_speed", .lit ", Max ", .named "max_speed", .lit " m/s"]
  let sc ← sc.appendF (fmtT "GAP: " "gap" " m/s")
  let sc ← sc.appendF [.lit "Cadence: Avg ", .named "average_cadence", .lit ", Min ", .named "min_cadence", .lit ", Max ", .named "max_cadence", .lit " rpm"]
  let sc ← sc.appendF (fmtT "Stride: " "average_stride" "")
  sectionExit sc sec

/-- The Elevation & Environment sub-section of one interval
(formatting.py:383-389). -/
def intervalElevationBlock (sec : SecSt) (d : Dict) : Except PyExc SecSt := do
  let ee := sectionInit none (some sec) (some "Elevation & Environment:") (.str "") (some d)
  let ee ← ee.appendF (fmtT "Elevation Gain: " "total_elevation_gain" " meters")
  let ee ← ee.appendF [.lit "Altitude: Min ", .named "min_altitude", .lit ", Max ", .named "max_altitude", .lit " meters"]
  let ee ← ee.appendF (fmtT "Gradient: " "average_gradient" "%")
  let ee ← ee.appendF [.lit "Temperature: ", .named "average_temp", .lit "°C (Weather: ", .named "average_weather_temp", .lit "°C, Feels like: ", .named "average_feels_like", .lit "°C)"]
  let ee ← ee.appendF [.lit "Wind: Speed ", .named "average_wind_speed", .lit " km/h, Gust ", .named "average_wind_gust", .lit " km/h, Direction ", .named "prevailing_wind_deg", .lit "°"]
  let ee ← ee.appendF [.lit "Headwind: ", .named "headwind_percent", .lit "%, Tailwind: ", .named "tailwind_percent", .lit "%"]
  sectionExit ee sec

/-- The body of one individual-interval section after the duration line
(formatting.py:351-389). -/
def intervalRest (sec : SecSt) (d : Dict) : Except PyExc SecSt := do
  let sec ← sec.appendF (fmtT "Distance: " "distance" " meters")
  let sec ← sec.appendF [.lit "Start-End Indices: ", .named "start_index", .lit "-", .named "end_index"]
  let sec ← intervalPowerBlock sec d
  let sec ← intervalHrBlock sec d
  let sec ← intervalSpeedBlock sec d
  intervalElevationBlock sec d

/-- One iteration of the individual-intervals loop of `format_intervals`
(formatting.py:348-389), updating the enclosing Individual Intervals
section state.  The with-block body is split into the helper definitions
above. -/
def formatOneInterval (parent : SecSt) (i : Nat) (interval : Val) : Except PyExc SecSt := do
  let d ← asDict interval
  let sec := sectionInit none (some parent) (some (intervalHeading i d)) (.str "") (some d)
  let sec ← sec.append durationFmt none .vNull none (.vInt 0) none []
  let sec ← intervalRest sec d
  sectionExit sec parent

/-- The composed `[{i}] {label} ({type})` template of the group section
(formatting.py:395). -/
def groupLabelFmt : List FPart :=
  [.lit "[", .named "i", .lit "] ", .named "label", .lit " (", .named "type", .lit ")"]

/-- The body of one interval-group section after the composed label line
(formatting.py:396-404). -/
def groupRest (gs : SecSt) (_d : Dict) : Except PyExc SecSt := do
  let gs ← gs.append durationFmt none .vNull none (.vInt 0) none []
  let gs ← gs.appendF (fmtT "Distance: " "distance" " meters")
  let gs ← gs.append [.lit "Start-End Indices: ", .named "start_index", .lit "-", .named "end_index"]
    none .vNull none (.vInt 0) none []
  let gs ← gs.append [.lit "Power: Avg ", .named "average_watts", .lit " watts (", .named "average_watts_kg", .lit " W/kg), Max ", .named "max_watts", .lit " watts (", .named "max_watts_kg", .lit " W/kg)"]
    none .vNull none .vNull (some [("average_watts_kg", .vInt 0), ("max_watts_kg", .vInt 0)]) []
  let gs ← gs.appendF [.lit "W. Avg Power: ", .named "weighted_average_watts", .lit " watts, Intensity: ", .named "intensity"]
  let gs ← gs.appendF [.lit "Heart Rate: Avg ", .named "average_heartrate", .lit ", Max ", .named "max_heartrate", .lit " bpm"]
  let gs ← gs.appendF [.lit "Speed: Avg ", .named "average_speed", .lit ", Max ", .named "max_speed", .lit " m/s"]
  let gs ← gs.appendF [.lit "Cadence: Avg ", .named "average_cadence", .lit ", Max ", .named "max_cadence", .lit " rpm"]
  pure gs

/-- One iteration of the interval-groups loop of `format_intervals`
(formatting.py:393-404).  The section heading is the literal
`f"Group {i}"`; the composed `[{i}] {label} ({type})` string is appended
as an ordinary content line. -/
def formatOneGroup (parent : SecSt) (i : Nat) (group : Val) : Except PyExc SecSt := do
  let d ← asDict group
  let gs := sectionInit none (some parent) (some ("Group " ++ toString i)) (.str "") (some d)
  let gs ← gs.append groupLabelFmt
    none .vNull none .vNull
    (some [("label", .vStr ("Group " ++ toString i)), ("type", .vStr "Unknown")])
    [("i", .vInt i)]
  let gs ← groupRest gs d
  sectionExit gs parent

/-- `format_intervals` (formatting.py:329-406).  Its single parameter is
the intervals payload; the activity type is not a parameter of this
function. -/
def format_intervals (intervals_data : Dict) : Except PyExc String := do
  let main := sectionInit (some []) none (some "Intervals Analysis:") (.str "") (some intervals_data)
  let main ← main.appendF (fmtT "ID: " "id" "")
  let main ← main.appendF (fmtT "Analyzed: " "analyzed" "")
  let main ←
    match dictGet intervals_data "icu_intervals" with
    | some v =>
        if v.truthy then do
          let isec := sectionInit none (some main) (some "Individual Intervals:") (.str "") none
          let items ← pyIterE v
          let isec ← (enumerate1 items).foldlM (fun acc p => formatOneInterval acc p.1 p.2) isec
          sectionExit isec main
        else pure main
    | none => pure main
  let main ←
    match dictGet intervals_data "icu_groups" with
    | some v =>
        if v.truthy then do
          let gsec := sectionInit none (some main) (some "Interval Groups:") (.str "") none
          let items ← pyIterE v
          let gsec ← (enumerate1 items).foldlM (fun acc p => formatOneGroup acc p.1 p.2) gsec
          sectionExit gsec main
        else pure main
    | none => pure main
  pure (String.intercalate "\n" main.lines)

/-!  HTTP request gateway and tool handlers (server.py).

The HTTP transport is abstracted: `HttpOutcome` is what one upstream
request produced (a response with a status, a content flag, the JSON parse
outcome and the raw body text, or a transport failure), and the handlers
take the responses of the requests they would issue as parameters, exactly
as the repository's tests monkeypatch `make_intervals_request`. -/

/-- What one HTTP request produced.  `json = none` models a body that is
not valid JSON (where `response.json()` raises `JSONDecodeError`). -/
inductive HttpOutcome where
  | resp (status : Nat) (hasContent : Bool) (json : Option Val) (text : String)
  | requestError (msg : String)
  | httpError (msg : String)

/-- `_get_error_message` (server.py:141-156): the static table for the
mapped statuses, the raw response text otherwise. -/
def _get_error_message (error_code : Nat) (error_text : String) : String :=
  if error_code = 401 then "401 Unauthorized: Please check your API key."
  else if error_code = 403 then "403 Forbidden: You may not have permission to access this resource."
  else if error_code = 404 then "404 Not Found: The requested endpoint or ID doesn\x27t exist."
  else if error_code = 422 then "422 Unprocessable Entity: The server couldn\x27t process the request (invalid parameters or unsupported operation)."
  else if error_code = 429 then "429 Too Many Requests: Too many requests in a short time period."
  else if error_code = 500 then "500 Internal Server Error: The Intervals.icu server encountered an internal error."
  else if error_code = 503 then "503 Service Unavailable: The Intervals.icu server might be down or undergoing maintenance."
  else error_text

/-- `make_intervals_request` (server.py:159-231).  The first component is
the returned value; the second is `some password` when an HTTP request was
issued with that basic-auth password, `none` when the function returned
before any network I/O.  The body is parsed (`response.json()`) before
`raise_for_status`, so a non-JSON body wins over the status mapping. -/
def make_intervals_request (globalApiKey : String) (outcome : HttpOutcome)
    (api_key : Option String) : Val × Option String :=
  let key_to_use := match api_key with
    | some k => k
    | none => globalApiKey
  if key_to_use = "" then
    (.vDict [("error", .vBool true),
             ("message", .vStr "API key is required. Set API_KEY env var or pass api_key")], none)
  else
    match outcome with
    | .resp status hasContent json text =>
        match (if hasContent then json else some (.vDict [])) with
        | none =>
            (.vDict [("error", .vBool true), ("message", .vStr "Invalid JSON in response")],
             some key_to_use)
        | some response_data =>
            if 200 ≤ status && status < 300 then (response_data, some key_to_use)
            else
              (.vDict [("error", .vBool true), ("status_code", .vInt status),
                       ("message", .vStr (_get_error_message status text))],
               some key_to_use)
    | .requestError m =>
        (.vDict [("error", .vBool true), ("message", .vStr ("Request error: " ++ m))],
         some key_to_use)
    | .httpError m =>
        (.vDict [("error", .vBool true), ("message", .vStr ("HTTP client error: " ++ m))],
         some key_to_use)

/-- `isinstance(result, dict) and "error" in result`. -/
def isErrorResult (v : Val) : Bool :=
  match v with
  | .vDict d => dictHasKey d "error"
  | _ => false

/-- `str(result.get("message", "Unknown error"))`. -/
def resultMessage (v : Val) : String :=
  match v with
  | .vDict d => pyStr (dictGetD d "message" (.vStr "Unknown error"))
  | _ => "Unknown error"

/-- `key in v` for a possibly non-dict value. -/
def hasKeyV (v : Val) (k : String) : Bool :=
  match v with
  | .vDict d => dictHasKey d k
  | _ => false

/-- `_parse_activities_from_result` (server.py:237-253): a list yields its
dict elements; a dict yields the dict elements of its first list-valued
entry, and when that leaves nothing and the dict has one of the typical
activity keys, the dict itself as a singleton; anything else yields `[]`. -/
def _parse_activities_from_result (result : Val) : List Val :=
  match result with
  | .vList items => items.filter Val.isDict
  | .vDict entries =>
      let fromFirstList : List Val :=
        match entries.find? (fun p => p.2.isList) with
        | some p =>
            (match p.2 with
             | .vList xs => xs
             | _ => []).filter Val.isDict
        | none => []
      if fromFirstList.isEmpty &&
         (dictHasKey entries "name" || dictHasKey entries "startTime" || dictHasKey entries "distance")
      then [.vDict entries]
      else fromFirstList
  | _ => []

/-- The predicate of `_filter_named_activities` on one dict activity:
`activity.get("name") and activity.get("name") != "Unnamed"`. -/
def keepNamed (v : Val) : Bool :=
  match v with
  | .vDict d =>
      let nm := dictGetD d "name" .vNull
      nm.truthy && !(match nm with
                     | .vStr s => s == "Unnamed"
                     | _ => false)
  | _ => false

/-- `_filter_named_activities` (server.py:256-262).  Calling `.get` on a
non-dict element raises `AttributeError`, as the list comprehension would. -/
def _filter_named_activities : List Val → Except PyExc (List Val)
  | [] => .ok []
  | a :: rest =>
      match a with
      | .vDict _ => do
          let r ← _filter_named_activities rest
          pure (if keepNamed a then a :: r else r)
      | _ => .error (.attributeError "object has no attribute get")

/-- The query parameters of one activities fetch, recorded for the
instrumented handler. -/
structure FetchCall where
  oldest : String
  newest : String
  limit : Nat

/-- The instrumented result of one `get_activities` invocation: the
returned message, the activities fetches that were issued (in order), and
the final activity list that was formatted. -/
structure ActivitiesRun where
  message : String
  calls : List FetchCall
  selected : List Val

/-- `_fetch_more_activities` (server.py:265-292), taking the upstream
response of the backward-window fetch as a parameter and also returning
the fetch it issued (empty when the degenerate-window guard returned
early). -/
def _fetch_more_activities (moreResult : Val) (start_date : String)
    (api_limit : Nat) : Except PyExc (List Val × List FetchCall) :=
  match parseDate start_date with
  | none => .error (.valueError "Invalid isoformat string")
  | some ymd =>
      let g := daysFromCivil ymd.1 ymd.2.1 ymd.2.2
      let older_start := dateToStr (civilFromDays (g - 60))
      let older_end := dateToStr (civilFromDays (g - 1))
      if strGe older_start older_end then .ok ([], [])
      else
        let call : FetchCall := ⟨older_start, older_end, api_limit⟩
        match moreResult with
        | .vList items =>
            match _filter_named_activities items with
            | .ok f => .ok (f, [call])
            | .error e => .error e
        | _ => .ok ([], [call])

/-- `_format_activities_response` (server.py:295-317). -/
def _format_activities_response (activities : List Val) (athlete_id : String)
    (include_unnamed : Bool) : Except PyExc String :=
  if activities.isEmpty then
    .ok (if include_unnamed then
          "No valid activities found for athlete " ++ athlete_id ++ " in the specified date range."
        else
          "No named activities found for athlete " ++ athlete_id ++ " in the specified date range. Try with include_unnamed=True to see all activities.")
  else
    activities.foldlM (fun s a =>
      match a with
      | .vDict d =>
          match format_activity_summary d with
          | .ok t => .ok (s ++ "\n\n" ++ t)
          | .error e => .error e
      | _ => .ok (s ++ "\n\n" ++ "Invalid activity format: " ++ pyStr a)) "Activities:"

/-- `get_activities` (server.py:320-387), instrumented.  `r1` is the
upstream response of the first activities fetch and `r2` that of the
backward-window fetch (used only when issued); the date parameters are the
already-defaulted window. -/
def get_activities (r1 r2 : Val) (athlete_id start_date end_date : String)
    (limit : Nat) (include_unnamed : Bool) : Except PyExc ActivitiesRun :=
  if athlete_id = "" then
    .ok ⟨"Error: No athlete ID provided and no default ATHLETE_ID found in environment variables.", [], []⟩
  else
    let api_limit := if !include_unnamed then limit * 3 else limit
    let call1 : FetchCall := ⟨start_date, end_date, api_limit⟩
    if isErrorResult r1 then
      .ok ⟨"Error fetching activities: " ++ resultMessage r1, [call1], []⟩
    else if !r1.truthy then
      .ok ⟨"No activities found for athlete " ++ athlete_id ++ " in the specified date range.", [call1], []⟩
    else
      let activities := _parse_activities_from_result r1
      if activities.isEmpty then
        .ok ⟨"No valid activities found for athlete " ++ athlete_id ++ " in the specified date range.", [call1], []⟩
      else
        match (if !include_unnamed then
                 match _filter_named_activities activities with
                 | .error e => .error e
                 | .ok acts =>
                     if acts.length < limit then
                       match _fetch_more_activities r2 start_date api_limit with
                       | .error e => .error e
                       | .ok (more, mc) => .ok (acts ++ more, [call1] ++ mc)
                     else .ok (acts, [call1])
               else (.ok (activities, [call1]) : Except PyExc (List Val × List FetchCall))) with
        | .error e => .error e
        | .ok (acts0, calls) =>
            let acts := acts0.take limit
            match _format_activities_response acts athlete_id include_unnamed with
            | .error e => .error e
            | .ok msg => .ok ⟨msg, calls, acts⟩

/-- `get_activity_intervals` (server.py:431-464).  `r1` is the response of
the intervals fetch and `r2` that of the activity fetch.  The final line
of the source calls `format_intervals(result, activity_type)` with two
positional arguments, while `format_intervals` (formatting.py:329)
declares the single parameter `intervals_data`, so reaching that call
raises `TypeError`; and `activity_result.get("type")` on a non-dict
response raises `AttributeError`. -/
def get_activity_intervals (activity_id : String) (r1 r2 : Val) : Except PyExc String :=
  if isErrorResult r1 then
    .ok ("Error fetching intervals: " ++ resultMessage r1)
  else if !r1.truthy then
    .ok ("No interval data found for activity " ++ activity_id ++ ".")
  else if !(r1.isDict && (hasKeyV r1 "icu_intervals" || hasKeyV r1 "icu_groups")) then
    .ok ("No interval data or unrecognized format for activity " ++ activity_id ++ ".")
  else
    match r2 with
    | .vDict _ =>
        .error (.typeError "format_intervals() takes 1 positional argument but 2 were given")
    | _ => .error (.attributeError "object has no attribute get")

/-- Whether `pat` starts the character list `s`. -/
def charsStartWith : List Char → List Char → Bool
  | [], _ => true
  | _ :: _, [] => false
  | a :: as, b :: bs => a == b && charsStartWith as bs

/-- Whether `pat` occurs anywhere in the character list. -/
def charsContain (pat : List Char) : List Char → Bool
  | [] => charsStartWith pat []
  | c :: rest => charsStartWith pat (c :: rest) || charsContain pat rest

/-- Whether `pat` occurs as a substring of `s`. -/
def strContains (s pat : String) : Bool :=
  charsContain pat.toList s.toList

/-!  Lemmas about the dict model. -/

theorem dictGet_nil (k : String) : dictGet [] k = none := rfl

theorem dictGet_cons (k1 : String) (v : Val) (d : Dict) (k : String) :
    dictGet ((k1, v) :: d) k = if k1 = k then some v else dictGet d k := by
  by_cases h : k1 = k
  · simp [dictGet, List.find?, h]
  · simp only [dictGet, List.find?]
    have hb : ((k1, v).1 == k) = false := by simpa using h
    simp [hb, h]

theorem dictGet_append (xs ys : Dict) (k : String) :
    dictGet (xs ++ ys) k =
      match dictGet xs k with
      | some v => some v
      | none => dictGet ys k := by
  induction xs with
  | nil => rfl
  | cons p rest ih =>
      obtain ⟨k1, v⟩ := p
      rw [List.cons_append, dictGet_cons, dictGet_cons]
      by_cases h : k1 = k
      · simp [h]
      · simp [h, ih]

theorem dictGet_map_override (a b : Dict) (k : String) :
    dictGet (a.map (fun p =>
        match dictGet b p.1 with
        | some v => (p.1, v)
        | none => p)) k =
      match dictGet a k with
      | none => none
      | some v =>
          some (match dictGet b k with
                | some w => w
                | none => v) := by
  induction a with
  | nil => rfl
  | cons p rest ih =>
      obtain ⟨k1, v⟩ := p
      rw [List.map_cons, dictGet_cons]
      by_cases h : k1 = k
      · subst h
        cases hb : dictGet b k1 <;> simp [dictGet_cons, hb]
      · cases hb : dictGet b k1 <;> simp [dictGet_cons, h, ih]

theorem dictGet_filter_not_in (a b : Dict) (k : String) :
    dictGet (b.filter (fun p => !dictHasKey a p.1)) k =
      if dictHasKey a k then none else dictGet b k := by
  induction b with
  | nil => simp [dictGet_nil]
  | cons q rest ih =>
      obtain ⟨k1, w⟩ := q
      by_cases h : k1 = k
      · subst h
        by_cases ha : dictHasKey a k1
        · simp [List.filter_cons, ha, ih]
        · simp [List.filter_cons, ha, dictGet_cons]
      · by_cases ha : dictHasKey a k1
        · simp [List.filter_cons, ha, ih, h, dictGet_cons]
        · simp [List.filter_cons, ha, dictGet_cons, h, ih]

/-- Lookup in a Python `{**a, **b}` merge: `b` wins, else `a`. -/
theorem dictGet_merge (a b : Dict) (k : String) :
    dictGet (dictMerge a b) k =
      match dictGet b k with
      | some v => some v
      | none => dictGet a k := by
  rw [dictMerge, dictGet_append, dictGet_map_override, dictGet_filter_not_in]
  cases hA : dictGet a k <;> cases hB : dictGet b k <;>
    simp [dictHasKey, hA, hB]

theorem dictMerge_nil_left (b : Dict) : dictMerge [] b = b := by
  simp only [dictMerge, List.map_nil, List.nil_append]
  exact List.filter_eq_self.mpr (fun p _ => rfl)

theorem dictMerge_nil_right (a : Dict) : dictMerge a [] = a := by
  simp [dictMerge, dictGet_nil]

theorem stripNone_cons (p : String × Val) (d : Dict) :
    stripNone (p :: d) = if p.2.isNull then stripNone d else p :: stripNone d := by
  cases hv : p.2.isNull <;> simp [stripNone, List.filter_cons, hv]

theorem dictErase_cons (p : String × Val) (d : Dict) (k : String) :
    dictErase (p :: d) k = if p.1 = k then dictErase d k else p :: dictErase d k := by
  by_cases h : p.1 = k <;> simp [dictErase, List.filter_cons, h]

theorem dictGet_map_set (d : Dict) (k : String) (v : Val) (j : String) :
    dictGet (d.map (fun p => if p.1 == k then (k, v) else p)) j =
      if k = j then (if dictHasKey d k then some v else none)
      else dictGet d j := by
  induction d with
  | nil =>
      by_cases h : k = j <;> simp [h, dictGet_nil, dictHasKey]
  | cons p rest ih =>
      obtain ⟨k1, w⟩ := p
      rw [List.map_cons]
      by_cases h1 : k1 = k
      · have hhead : (if ((k1, w) : String × Val).1 == k then (k, v) else (k1, w)) = (k, v) := by
          simp [h1]
        have hk : dictHasKey ((k1, w) :: rest) k = true := by
          simp [dictHasKey, dictGet_cons, h1]
        rw [hhead, dictGet_cons, ih, hk]
        by_cases h2 : k = j
        · simp [h2]
        · simp [h2, dictGet_cons, h1]
      · have hhead : (if ((k1, w) : String × Val).1 == k then (k, v) else (k1, w)) = (k1, w) := by
          simp [h1]
        have hk : dictHasKey ((k1, w) :: rest) k = dictHasKey rest k := by
          simp [dictHasKey, dictGet_cons, h1]
        rw [hhead, dictGet_cons, ih, hk]
        by_cases h2 : k1 = j
        · have h3 : ¬k = j := fun h => h1 (h2.trans h.symm)
          simp [h2, h3, dictGet_cons]
        · simp [h2, dictGet_cons]

theorem dictGet_set_self (d : Dict) (k : String) (v : Val) :
    dictGet (dictSet d k v) k = some v := by
  rw [dictSet]
  by_cases h : dictHasKey d k
  · rw [if_pos h, dictGet_map_set]
    simp [h]
  · rw [if_neg h, dictGet_append]
    have hn : dictGet d k = none := by
      revert h
      unfold dictHasKey
      cases hg : dictGet d k <;> simp
    simp [hn, dictGet_cons]

theorem dictGet_set_ne (d : Dict) (k : String) (v : Val) (j : String) (h : k ≠ j) :
    dictGet (dictSet d k v) j = dictGet d j := by
  rw [dictSet]
  by_cases hk : dictHasKey d k
  · rw [if_pos hk, dictGet_map_set]
    simp [h]
  · rw [if_neg hk, dictGet_append]
    cases hg : dictGet d j <;> simp [dictGet_cons, dictGet_nil, h, hg]

theorem dictGet_none_forall (d : Dict) (k : String) (hn : dictGet d k = none) :
    ∀ p ∈ d, p.1 ≠ k := by
  induction d with
  | nil => intro p hp; cases hp
  | cons q rest ih =>
      intro p hp
      obtain ⟨q1, q2⟩ := q
      rw [dictGet_cons] at hn
      by_cases h : q1 = k
      · simp [h] at hn
      · rw [if_neg h] at hn
        cases hp with
        | head => exact h
        | tail _ hp => exact ih hn p hp

theorem dictErase_of_not_has (d : Dict) (k : String) (h : dictHasKey d k = false) :
    dictErase d k = d := by
  have hn : dictGet d k = none := by
    revert h
    unfold dictHasKey
    cases hg : dictGet d k <;> simp
  refine List.filter_eq_self.mpr ?_
  intro p hp
  simpa using dictGet_none_forall d k hn p hp

theorem stripNone_cons_drop (p : String × Val) (d : Dict) (h : p.2.isNull = true) :
    stripNone (p :: d) = stripNone d := by
  simp [stripNone, List.filter_cons, h]

theorem stripNone_cons_keep (p : String × Val) (d : Dict) (h : p.2.isNull = false) :
    stripNone (p :: d) = p :: stripNone d := by
  simp [stripNone, List.filter_cons, h]

theorem stripNone_map_null (d : Dict) (k : String) :
    stripNone (d.map (fun p => if p.1 == k then (k, .vNull) else p)) =
      stripNone (dictErase d k) := by
  induction d with
  | nil => rfl
  | cons p rest ih =>
      obtain ⟨k1, v⟩ := p
      rw [List.map_cons, dictErase_cons]
      by_cases h : k1 = k
      · have hhead : (if ((k1, v) : String × Val).1 == k then (k, Val.vNull) else (k1, v)) = (k, .vNull) := by
          simp [h]
        rw [hhead, stripNone_cons_drop (k, Val.vNull) _ rfl, if_pos h]
        exact ih
      · have hhead : (if ((k1, v) : String × Val).1 == k then (k, Val.vNull) else (k1, v)) = (k1, v) := by
          simp [h]
        rw [hhead, if_neg h]
        cases hv : Val.isNull v
        · rw [stripNone_cons_keep _ _ hv, stripNone_cons_keep _ _ hv, ih]
        · rw [stripNone_cons_drop _ _ hv, stripNone_cons_drop _ _ hv, ih]

/-- Setting a key to `None` and erasing the key are indistinguishable after
`process_data` strips `None` values. -/
theorem stripNone_set_null (d : Dict) (k : String) :
    stripNone (dictSet d k .vNull) = stripNone (dictErase d k) := by
  rw [dictSet]
  by_cases h : dictHasKey d k
  · rw [if_pos h]
    exact stripNone_map_null d k
  · rw [if_neg h, dictErase_of_not_has d k (by simpa using h)]
    unfold stripNone
    rw [List.filter_append]
    simp [Val.isNull]

/-!  Lemmas about `pyFormat` and `Section.append`. -/

/-- A successful format resolves every named field, so a format over a
context missing a referenced name cannot succeed. -/
theorem pyFormat_missing_named (fmt : List FPart) (k : String) :
    ∀ (args : List Val) (ai : Nat) (ctx : Dict), FPart.named k ∈ fmt → dictGet ctx k = none →
      ∀ r, pyFormat fmt args ai ctx ≠ .ok r := by
  induction fmt with
  | nil =>
      intro args ai ctx hmem
      cases hmem
  | cons p rest ih =>
      intro args ai ctx hmem hctx r hok
      cases p with
      | lit t =>
          have hmem2 : FPart.named k ∈ rest := by
            rcases List.mem_cons.mp hmem with h | h
            · cases h
            · exact h
          simp only [pyFormat] at hok
          cases hrec : pyFormat rest args ai ctx with
          | ok t2 => exact ih args ai ctx hmem2 hctx t2 hrec
          | error e => rw [hrec] at hok; cases hok
      | auto =>
          have hmem2 : FPart.named k ∈ rest := by
            rcases List.mem_cons.mp hmem with h | h
            · cases h
            · exact h
          simp only [pyFormat] at hok
          cases hidx : args[ai]? with
          | none => rw [hidx] at hok; cases hok
          | some v =>
              rw [hidx] at hok
              cases hrec : pyFormat rest args (ai + 1) ctx with
              | ok t2 => exact ih args (ai + 1) ctx hmem2 hctx t2 hrec
              | error e => rw [hrec] at hok; cases hok
      | named k2 =>
          simp only [pyFormat] at hok
          rcases List.mem_cons.mp hmem with h | h
          · cases h
            rw [hctx] at hok
            cases hok
          · cases hget : dictGet ctx k2 with
            | none => rw [hget] at hok; cases hok
            | some v =>
                rw [hget] at hok
                cases hrec : pyFormat rest args ai ctx with
                | ok t2 => exact ih args ai ctx h hctx t2 hrec
                | error e => rw [hrec] at hok; cases hok
      | namedSpec k2 sp =>
          have hmem2 : FPart.named k ∈ rest := by
            rcases List.mem_cons.mp hmem with h | h
            · cases h
            · exact h
          simp only [pyFormat] at hok
          cases hget : dictGet ctx k2 with
          | none => rw [hget] at hok; cases hok
          | some v =>
              rw [hget] at hok
              dsimp only at hok
              cases hrs : renderSpec sp v with
              | error e => rw [hrs] at hok; cases hok
              | ok t1 =>
                  rw [hrs] at hok
                  cases hrec : pyFormat rest args ai ctx with
                  | ok t2 => exact ih args ai ctx hmem2 hctx t2 hrec
                  | error e => rw [hrec] at hok; cases hok

/-- When every spec-carrying field of the template is absent from the
context, the format cannot fail with a format-spec `ValueError`: the
`KeyError` of the missing lookup fires first. -/
theorem pyFormat_not_specError (fmt : List FPart) :
    ∀ (args : List Val) (ai : Nat) (ctx : Dict),
      (∀ k sp, FPart.namedSpec k sp ∈ fmt → dictGet ctx k = none) →
      pyFormat fmt args ai ctx ≠ .error .specError := by
  induction fmt with
  | nil =>
      intro args ai ctx _ h
      cases h
  | cons p rest ih =>
      intro args ai ctx hs heq
      have hs2 : ∀ k sp, FPart.namedSpec k sp ∈ rest → dictGet ctx k = none :=
        fun k sp hm => hs k sp (List.mem_cons.mpr (Or.inr hm))
      cases p with
      | lit t =>
          simp only [pyFormat] at heq
          cases hrec : pyFormat rest args ai ctx with
          | ok t2 => rw [hrec] at heq; cases heq
          | error e =>
              rw [hrec] at heq
              cases heq
              exact ih args ai ctx hs2 hrec
      | auto =>
          simp only [pyFormat] at heq
          cases hidx : args[ai]? with
          | none => rw [hidx] at heq; cases heq
          | some v =>
              rw [hidx] at heq
              cases hrec : pyFormat rest args (ai + 1) ctx with
              | ok t2 => rw [hrec] at heq; cases heq
              | error e =>
                  rw [hrec] at heq
                  cases heq
                  exact ih args (ai + 1) ctx hs2 hrec
      | named k2 =>
          simp only [pyFormat] at heq
          cases hget : dictGet ctx k2 with
          | none => rw [hget] at heq; cases heq
          | some v =>
              rw [hget] at heq
              cases hrec : pyFormat rest args ai ctx with
              | ok t2 => rw [hrec] at heq; cases heq
              | error e =>
                  rw [hrec] at heq
                  cases heq
                  exact ih args ai ctx hs2 hrec
      | namedSpec k2 sp =>
          have hget : dictGet ctx k2 = none := hs k2 sp (List.mem_cons.mpr (Or.inl rfl))
          simp only [pyFormat] at heq
          rw [hget] at heq
          cases heq

/-- With no `none_val`, any failing format attempt makes the append loop
give up immediately (provided the failure is not a format-spec error). -/
theorem appendLoop_noop (fmt : List FPart) (fuel : Nat) (args : List Val)
    (defaults data : Dict)
    (hfail : ∀ r, pyFormat fmt args 0 (dictMerge defaults data) ≠ .ok r)
    (hspec : pyFormat fmt args 0 (dictMerge defaults data) ≠ .error .specError) :
    appendLoop fmt .vNull (fuel + 1) args defaults data = .ok none := by
  rw [appendLoop]
  cases hfmt : pyFormat fmt args 0 (dictMerge defaults data) with
  | ok r => exact absurd hfmt (hfail r)
  | error e =>
      cases e with
      | keyError k2 => simp [Val.isNull]
      | indexError => simp [Val.isNull]
      | specError => exact absurd hfmt hspec

/-- C6: an append whose template references a field that is absent from
the merged context (and whose spec-carrying fields, if any, are absent
too), with no `none_val` default, leaves the section untouched. -/
theorem c6_absent_field_append_is_noop (s : SecSt) (fmt : List FPart)
    (valueKey : Option (List String)) (value : Val) (dataArg : Option Dict)
    (defaultsArg : Option Dict) (kwargs : Dict) (k : String)
    (hmem : FPart.named k ∈ fmt)
    (habs : dictGet (dictMerge (defaultsArg.getD []) (appendData s dataArg kwargs)) k = none)
    (hspec : ∀ k2 sp, FPart.namedSpec k2 sp ∈ fmt →
      dictGet (dictMerge (defaultsArg.getD []) (appendData s dataArg kwargs)) k2 = none) :
    s.append fmt valueKey value dataArg .vNull defaultsArg kwargs = .ok s := by
  unfold SecSt.append
  rw [show fmt.length + 2 = (fmt.length + 1) + 1 from rfl]
  rw [appendLoop_noop fmt (fmt.length + 1) _ _ _
    (fun r => pyFormat_missing_named fmt k _ 0 _ hmem habs r)
    (pyFormat_not_specError fmt _ 0 _ hspec)]

/-- Appending the empty template always succeeds with an empty line,
flushing any pending heading. -/
theorem appendF_empty (s : SecSt) :
    s.appendF [] = .ok ⟨s.lines ++ s.headingLines ++ [s.indent], [], s.data, s.indent⟩ := by
  have h : s.appendF [] =
      .ok ⟨s.lines ++ s.headingLines ++ [s.indent ++ ""], [], s.data, s.indent⟩ := rfl
  rw [h, String.append_empty]

/-- Closed form of `Section.__exit__`: the parent first gets a blank line
(flushing its own pending heading) whenever it already has content, and
then the child's lines, if there are any. -/
theorem sectionExit_eq (child parent : SecSt) :
    sectionExit child parent =
      .ok ((if parent.lines.length > 0 then
              (⟨parent.lines ++ parent.headingLines ++ [parent.indent], [],
                parent.data, parent.indent⟩ : SecSt)
            else parent).appendLines child.lines) := by
  unfold sectionExit
  by_cases h : parent.lines.length > 0
  · rw [if_pos h, if_pos h, appendF_empty]
  · rw [if_neg h, if_neg h]

/-- C5 (amended): closing a section into which no content line was ever
written never emits the section's own heading, but when the section was
constructed with a parent whose buffer is nonempty, one blank separator
line (prefixed by the parent's indent) is still appended to the parent,
flushing the parent's pending heading. -/
theorem c5_empty_section_exit_adds_blank (child parent : SecSt)
    (hchild : child.lines = []) :
    sectionExit child parent =
      .ok (if parent.lines.length > 0 then
             (⟨parent.lines ++ parent.headingLines ++ [parent.indent], [],
               parent.data, parent.indent⟩ : SecSt)
           else parent) := by
  rw [sectionExit_eq, hchild]
  by_cases h : parent.lines.length > 0 <;> simp [h, SecSt.appendLines]

/-- C5 counterexample: a section with a heading and zero content lines,
closed into a parent that already holds one line, appends a blank line to
the parent, so closing it does contribute to the enclosing output. -/
theorem c5_counterexample_blank_line_emitted :
    sectionExit (⟨[], ["Heading:"], [], ""⟩ : SecSt) (⟨["x"], [], [], ""⟩ : SecSt) =
      .ok ⟨["x", ""], [], [], ""⟩ ∧
    (["x", ""] : List String) ≠ ["x"] :=
  ⟨rfl, by simp⟩

/-- Witness for the amended C5 theorem at a concrete empty section. -/
theorem c5_empty_section_exit_adds_blank_witness :
    sectionExit (⟨[], ["Heading:"], [("a", Val.vInt 1)], ""⟩ : SecSt)
        (⟨["x"], [], [], "> "⟩ : SecSt) =
      .ok ⟨["x", "> "], [], [], "> "⟩ := by
  have h := c5_empty_section_exit_adds_blank
    ⟨[], ["Heading:"], [("a", Val.vInt 1)], ""⟩ ⟨["x"], [], [], "> "⟩ rfl
  simpa using h

/-- Witness for C6: the RPE append of the activity formatter, on an
activity with neither `perceived_exertion` nor `icu_rpe`, leaves the
section unchanged. -/
theorem c6_absent_field_append_is_noop_witness :
    (⟨["Other Metrics:"], [], [("cadence", Val.vInt 80)], "- "⟩ : SecSt).append
        (fmtT "RPE: " "value" "/10") (some ["perceived_exertion", "icu_rpe"])
        .vNull none .vNull none [] =
      .ok ⟨["Other Metrics:"], [], [("cadence", Val.vInt 80)], "- "⟩ := by
  refine c6_absent_field_append_is_noop _ _ _ _ _ _ _ "value" ?_ ?_ ?_
  · decide
  · rfl
  · intro k2 sp h
    simp [fmtT] at h

/-!  Machinery for the per-entry section-shape theorem of the intervals
formatter (C7). -/

theorem ok_bind {α β : Type} (a : α) (k : α → Except PyExc β) :
    ((Except.ok a : Except PyExc α) >>= k) = k a := rfl

/-- Templates without a format spec. -/
def specFreeB (fmt : List FPart) : Bool :=
  fmt.all (fun p => match p with | .namedSpec _ _ => false | _ => true)

theorem specFreeB_no_mem {fmt : List FPart} (h : specFreeB fmt = true)
    (k sp : String) (hm : FPart.namedSpec k sp ∈ fmt) : False := by
  have h2 := List.all_eq_true.mp h _ hm
  simp at h2

/-- A spec-free template never raises out of the append loop. -/
theorem appendLoop_ok (fmt : List FPart) (h : specFreeB fmt = true) (noneVal : Val) :
    ∀ (fuel : Nat) (args : List Val) (defaults data : Dict),
      ∃ o, appendLoop fmt noneVal fuel args defaults data = .ok o := by
  intro fuel
  induction fuel with
  | zero =>
      intro args defaults data
      exact ⟨none, rfl⟩
  | succ n ih =>
      intro args defaults data
      rw [appendLoop]
      cases hf : pyFormat fmt args 0 (dictMerge defaults data) with
      | ok line => exact ⟨some line, rfl⟩
      | error e =>
          cases e with
          | keyError k =>
              by_cases hc : (!noneVal.isNull && !dictHasKey data k) = true
              · obtain ⟨o, ho⟩ := ih args defaults (dictSet data k noneVal)
                exact ⟨o, by simp [hc, ho]⟩
              · exact ⟨none, by simp [hc]⟩
          | indexError =>
              by_cases hc : (!noneVal.isNull && decide (args.length = 0)) = true
              · obtain ⟨o, ho⟩ := ih [noneVal] defaults data
                exact ⟨o, by simp [hc, ho]⟩
              · exact ⟨none, by simp [hc]⟩
          | specError =>
              exact absurd hf (pyFormat_not_specError fmt _ 0 _
                (fun k sp hm => (specFreeB_no_mem h k sp hm).elim))

/-- A spec-free append always returns a state. -/
theorem append_any_ok (fmt : List FPart) (h : specFreeB fmt = true) (s : SecSt)
    (valueKey : Option (List String)) (value : Val) (dataArg : Option Dict)
    (noneVal : Val) (defaultsArg : Option Dict) (kwargs : Dict) :
    ∃ s2, s.append fmt valueKey value dataArg noneVal defaultsArg kwargs = .ok s2 := by
  unfold SecSt.append
  obtain ⟨o, ho⟩ := appendLoop_ok fmt h noneVal (fmt.length + 2)
    (appendArgs s valueKey value dataArg noneVal kwargs)
    (defaultsArg.getD []) (appendData s dataArg kwargs)
  rw [ho]
  cases o with
  | none => exact ⟨s, rfl⟩
  | some line => exact ⟨_, rfl⟩

theorem appendF_any_ok (fmt : List FPart) (h : specFreeB fmt = true) (s : SecSt) :
    ∃ s2, s.appendF fmt = .ok s2 :=
  append_any_ok fmt h s none .vNull none .vNull none []

/-- A spec-free append on a state with no pending heading only ever
extends the line buffer, leaving data and indent alone. -/
theorem append_ok_extends (fmt : List FPart) (h : specFreeB fmt = true) (s : SecSt)
    (valueKey : Option (List String)) (value : Val) (dataArg : Option Dict)
    (noneVal : Val) (defaultsArg : Option Dict) (kwargs : Dict)
    (hh : s.headingLines = []) :
    ∃ t, s.append fmt valueKey value dataArg noneVal defaultsArg kwargs =
      .ok ⟨s.lines ++ t, [], s.data, s.indent⟩ := by
  unfold SecSt.append
  obtain ⟨o, ho⟩ := appendLoop_ok fmt h noneVal (fmt.length + 2)
    (appendArgs s valueKey value dataArg noneVal kwargs)
    (defaultsArg.getD []) (appendData s dataArg kwargs)
  rw [ho]
  cases o with
  | none =>
      refine ⟨[], ?_⟩
      cases s
      simp_all
  | some line =>
      refine ⟨[s.indent ++ line], ?_⟩
      rw [hh]
      simp

theorem appendF_ok_extends (fmt : List FPart) (h : specFreeB fmt = true) (s : SecSt)
    (hh : s.headingLines = []) :
    ∃ t, s.appendF fmt = .ok ⟨s.lines ++ t, [], s.data, s.indent⟩ :=
  append_ok_extends fmt h s none .vNull none .vNull none [] hh

/-- Exiting any child into a parent with no pending heading only extends
the parent's line buffer. -/
theorem exit_extends (child s : SecSt) (hh : s.headingLines = []) :
    ∃ t, sectionExit child s = .ok ⟨s.lines ++ t, [], s.data, s.indent⟩ := by
  rw [sectionExit_eq, hh]
  by_cases hl : s.lines.length > 0 <;> by_cases hc : child.lines.length > 0
  · exact ⟨[s.indent] ++ child.lines, by simp [hl, hc, SecSt.appendLines, hh]⟩
  · exact ⟨[s.indent], by simp [hl, hc, SecSt.appendLines, hh]⟩
  · exact ⟨child.lines, by simp [hl, hc, SecSt.appendLines, hh]⟩
  · refine ⟨[], ?_⟩
    cases s
    simp_all [SecSt.appendLines]

/-- Chaining two buffer-extending computations extends the buffer. -/
theorem okBind_ext {dt : Dict} {ind : String} {ls : List String}
    {e : Except PyExc SecSt} {k : SecSt → Except PyExc SecSt}
    (h1 : ∃ t, e = .ok ⟨ls ++ t, [], dt, ind⟩)
    (h2 : ∀ L : List String, ∃ t, k ⟨L, [], dt, ind⟩ = .ok ⟨L ++ t, [], dt, ind⟩) :
    ∃ t, (e >>= k) = .ok ⟨ls ++ t, [], dt, ind⟩ := by
  obtain ⟨t1, rfl⟩ := h1
  obtain ⟨t2, h3⟩ := h2 (ls ++ t1)
  refine ⟨t1 ++ t2, ?_⟩
  rw [ok_bind, h3]
  simp [List.append_assoc]

theorem pure_ext {dt : Dict} {ind : String} (L : List String) :
    ∃ t, (pure (⟨L, [], dt, ind⟩ : SecSt) : Except PyExc SecSt) = .ok ⟨L ++ t, [], dt, ind⟩ :=
  ⟨[], by simp [pure, Except.pure]⟩

/-- `Section(parent=p, heading=h, data=d)` with no explicit lines and the
default indent. -/
theorem sectionInit_child (st : SecSt) (h : String) (d : Dict) :
    sectionInit none (some st) (some h) (.str "") (some d) =
      ⟨[], [st.indent ++ h], stripNone d, st.indent⟩ := by
  simp [sectionInit, String.append_empty]

theorem appendData_none_nil (s : SecSt) : appendData s none [] = s.data := by
  unfold appendData
  rw [show stripNone ((none : Option Dict).getD []) = ([] : Dict) from rfl,
    dictMerge_nil_right, dictMerge_nil_right]

/-- The duration line of an interval/group section: `none_val=0` fills
both missing keys, so the append always succeeds and flushes the heading. -/
theorem append_duration_line (s : SecSt) :
    s.append durationFmt none .vNull none (.vInt 0) none [] =
      .ok ⟨s.lines ++ s.headingLines ++
            [s.indent ++ ("Duration: " ++ pyStr (dictGetD s.data "elapsed_time" (.vInt 0)) ++
              " seconds (moving: " ++ pyStr (dictGetD s.data "moving_time" (.vInt 0)) ++
              " seconds)")],
          [], s.data, s.indent⟩ := by
  unfold SecSt.append
  rw [show appendArgs s none .vNull none (.vInt 0) [] = [.vInt 0] from rfl,
    show (none : Option Dict).getD [] = ([] : Dict) from rfl,
    appendData_none_nil]
  have hne : ("elapsed_time" : String) ≠ "moving_time" := by decide
  rcases h1 : dictGet s.data "elapsed_time" with _ | v1 <;>
    rcases h2 : dictGet s.data "moving_time" with _ | v2 <;>
    simp [appendLoop, pyFormat, durationFmt, dictMerge_nil_left, h1, h2,
      dictHasKey, Val.isNull, dictGetD, dictGet_set_self,
      dictGet_set_ne _ _ _ _ hne, dictGet_set_ne _ _ _ _ (Ne.symm hne),
      String.append_assoc, String.append_empty]

/-- The composed `[{i}] {label} ({type})` append of a group section
always succeeds: `i` comes from the keyword arguments and `label`/`type`
fall back to the call's defaults. -/
theorem append_group_label_line (s : SecSt) (i : Nat) :
    s.append groupLabelFmt none .vNull none .vNull
        (some [("label", .vStr ("Group " ++ toString i)), ("type", .vStr "Unknown")])
        [("i", .vInt i)] =
      .ok ⟨s.lines ++ s.headingLines ++
            [s.indent ++ ("[" ++ pyStr (.vInt i) ++ "] " ++
              pyStr (dictGetD s.data "label" (.vStr ("Group " ++ toString i))) ++ " (" ++
              pyStr (dictGetD s.data "type" (.vStr "Unknown")) ++ ")")],
          [], s.data, s.indent⟩ := by
  unfold SecSt.append
  rw [show appendArgs s none .vNull none .vNull [("i", Val.vInt i)] = [] from rfl,
    show (some [("label", Val.vStr ("Group " ++ toString i)), ("type", Val.vStr "Unknown")]).getD [] =
      [("label", Val.vStr ("Group " ++ toString i)), ("type", Val.vStr "Unknown")] from rfl]
  have hmd : appendData s none [("i", Val.vInt i)] = dictMerge s.data [("i", Val.vInt i)] := by
    unfold appendData
    rw [show stripNone ((none : Option Dict).getD []) = ([] : Dict) from rfl, dictMerge_nil_right]
  rw [hmd]
  rcases hl : dictGet s.data "label" with _ | lv <;>
    rcases ht : dictGet s.data "type" with _ | tv <;>
    simp [appendLoop, pyFormat, groupLabelFmt, dictGet_merge, dictGet_cons,
      dictGet_nil, dictGetD, hl, ht, String.append_assoc, String.append_empty]

theorem intervalPowerBlock_ext (d : Dict) (L : List String) (dt : Dict) (ind : String) :
    ∃ t, intervalPowerBlock ⟨L, [], dt, ind⟩ d = .ok ⟨L ++ t, [], dt, ind⟩ := by
  unfold intervalPowerBlock
  dsimp only
  obtain ⟨p1, h1⟩ := append_any_ok
    [.lit "Average Power: ", .named "average_watts", .lit " watts (", .named "average_watts_kg", .lit " W/kg)"]
    (by decide)
    (sectionInit none (some ⟨L, [], dt, ind⟩) (some "Power Metrics:") (.str "") (some d))
    none .vNull none .vNull (some [("average_watts_kg", .vInt 0)]) []
  rw [h1, ok_bind]
  obtain ⟨p2, h2⟩ := append_any_ok
    [.lit "Max Power: ", .named "max_watts", .lit " watts (", .named "max_watts_kg", .lit " W/kg)"]
    (by decide) p1 none .vNull none .vNull (some [("max_watts_kg", .vInt 0)]) []
  rw [h2, ok_bind]
  obtain ⟨p3, h3⟩ := appendF_any_ok (fmtT "Weighted Avg Power: " "weighted_average_watts" " watts") (by decide) p2
  rw [h3, ok_bind]
  obtain ⟨p4, h4⟩ := appendF_any_ok (fmtT "Intensity: " "intensity" "") (by decide) p3
  rw [h4, ok_bind]
  obtain ⟨p5, h5⟩ := appendF_any_ok (fmtT "Training Load: " "training_load" "") (by decide) p4
  rw [h5, ok_bind]
  obtain ⟨p6, h6⟩ := appendF_any_ok (fmtT "Joules: " "joules" "") (by decide) p5
  rw [h6, ok_bind]
  obtain ⟨p7, h7⟩ := appendF_any_ok (fmtT "Joules > FTP: " "joules_above_ftp" "") (by decide) p6
  rw [h7, ok_bind]
  obtain ⟨p8, h8⟩ := appendF_any_ok
    [.lit "Power Zone: ", .named "zone", .lit " (", .named "zone_min_watts", .lit "-", .named "zone_max_watts", .lit " watts)"]
    (by decide) p7
  rw [h8, ok_bind]
  obtain ⟨p9, h9⟩ := appendF_any_ok
    [.lit "W\x27 Balance: Start ", .named "wbal_start", .lit ", End ", .named "wbal_end"]
    (by decide) p8
  rw [h9, ok_bind]
  obtain ⟨p10, h10⟩ := appendF_any_ok (fmtT "L/R Balance: " "avg_lr_balance" "") (by decide) p9
  rw [h10, ok_bind]
  obtain ⟨p11, h11⟩ := appendF_any_ok (fmtT "Variability: " "w5s_variability" "") (by decide) p10
  rw [h11, ok_bind]
  obtain ⟨p12, h12⟩ := appendF_any_ok
    [.lit "Torque: Avg ", .named "average_torque", .lit ", Min ", .named "min_torque", .lit ", Max ", .named "max_torque"]
    (by decide) p11
  rw [h12, ok_bind]
  exact exit_extends p12 ⟨L, [], dt, ind⟩ rfl

theorem intervalHrBlock_ext (d : Dict) (L : List String) (dt : Dict) (ind : String) :
    ∃ t, intervalHrBlock ⟨L, [], dt, ind⟩ d = .ok ⟨L ++ t, [], dt, ind⟩ := by
  unfold intervalHrBlock
  dsimp only
  obtain ⟨p1, h1⟩ := appendF_any_ok
    [.lit "Heart Rate: Avg ", .named "average_heartrate", .lit ", Min ", .named "min_heartrate", .lit ", Max ", .named "max_heartrate", .lit " bpm"]
    (by decide)
    (sectionInit none (some ⟨L, [], dt, ind⟩) (some "Heart Rate & Metabolic:") (.str "") (some d))
  rw [h1, ok_bind]
  obtain ⟨p2, h2⟩ := appendF_any_ok (fmtT "Decoupling: " "decoupling" "") (by decide) p1
  rw [h2, ok_bind]
  obtain ⟨p3, h3⟩ := appendF_any_ok (fmtT "DFA α1: " "average_dfa_a1" "") (by decide) p2
  rw [h3, ok_bind]
  obtain ⟨p4, h4⟩ := appendF_any_ok (fmtT "Respiration: " "average_respiration" " breaths/min") (by decide) p3
  rw [h4, ok_bind]
  obtain ⟨p5, h5⟩ := appendF_any_ok (fmtT "EPOC: " "average_epoc" "") (by decide) p4
  rw [h5, ok_bind]
  obtain ⟨p6, h6⟩ := appendF_any_ok
    [.lit "SmO2: ", .named "average_smo2", .lit "% / ", .named "average_smo2_2", .lit "%"]
    (by decide) p5
  rw [h6, ok_bind]
  obtain ⟨p7, h7⟩ := appendF_any_ok
    [.lit "THb: ", .named "average_thb", .lit "% / ", .named "average_thb_2", .lit "%"]
    (by decide) p6
  rw [h7, ok_bind]
  exact exit_extends p7 ⟨L, [], dt, ind⟩ rfl

theorem intervalSpeedBlock_ext (d : Dict) (L : List String) (dt : Dict) (ind : String) :
    ∃ t, intervalSpeedBlock ⟨L, [], dt, ind⟩ d = .ok ⟨L ++ t, [], dt, ind⟩ := by
  unfold intervalSpeedBlock
  dsimp only
  obtain ⟨p1, h1⟩ := appendF_any_ok
    [.lit "Speed: Avg ", .named "average_speed", .lit ", Min ", .named "min_speed", .lit ", Max ", .named "max_speed", .lit " m/s"]
    (by decide)
    (sectionInit none (some ⟨L, [], dt, ind⟩) (some "Speed & Cadence:") (.str "") (some d))
  rw [h1, ok_bind]
  obtain ⟨p2, h2⟩ := appendF_any_ok (fmtT "GAP: " "gap" " m/s") (by decide) p1
  rw [h2, ok_bind]
  obtain ⟨p3, h3⟩ := appendF_any_ok
    [.lit "Cadence: Avg ", .named "average_cadence", .lit ", Min ", .named "min_cadence", .lit ", Max ", .named "max_cadence", .lit " rpm"]
    (by decide) p2
  rw [h3, ok_bind]
  obtain ⟨p4, h4⟩ := appendF_any_ok (fmtT "Stride: " "average_stride" "") (by decide) p3
  rw [h4, ok_bind]
  exact exit_extends p4 ⟨L, [], dt, ind⟩ rfl

theorem intervalElevationBlock_ext (d : Dict) (L : List String) (dt : Dict) (ind : String) :
    ∃ t, intervalElevationBlock ⟨L, [], dt, ind⟩ d = .ok ⟨L ++ t, [], dt, ind⟩ := by
  unfold intervalElevationBlock
  dsimp only
  obtain ⟨p1, h1⟩ := appendF_any_ok (fmtT "Elevation Gain: " "total_elevation_gain" " meters")
    (by decide)
    (sectionInit none (some ⟨L, [], dt, ind⟩) (some "Elevation & Environment:") (.str "") (some d))
  rw [h1, ok_bind]
  obtain ⟨p2, h2⟩ := appendF_any_ok
    [.lit "Altitude: Min ", .named "min_altitude", .lit ", Max ", .named "max_altitude", .lit " meters"]
    (by decide) p1
  rw [h2, ok_bind]
  obtain ⟨p3, h3⟩ := appendF_any_ok (fmtT "Gradient: " "average_gradient" "%") (by decide) p2
  rw [h3, ok_bind]
  obtain ⟨p4, h4⟩ := appendF_any_ok
    [.lit "Temperature: ", .named "average_temp", .lit "°C (Weather: ", .named "average_weather_temp", .lit "°C, Feels like: ", .named "average_feels_like", .lit "°C)"]
    (by decide) p3
  rw [h4, ok_bind]
  obtain ⟨p5, h5⟩ := appendF_any_ok
    [.lit "Wind: Speed ", .named "average_wind_speed", .lit " km/h, Gust ", .named "average_wind_gust", .lit " km/h, Direction ", .named "prevailing_wind_deg", .lit "°"]
    (by decide) p4
  rw [h5, ok_bind]
  obtain ⟨p6, h6⟩ := appendF_any_ok
    [.lit "Headwind: ", .named "headwind_percent", .lit "%, Tailwind: ", .named "tailwind_percent", .lit "%"]
    (by decide) p5
  rw [h6, ok_bind]
  exact exit_extends p6 ⟨L, [], dt, ind⟩ rfl

theorem intervalRest_ext (d : Dict) (dt : Dict) (ind : String) (L : List String) :
    ∃ t, intervalRest ⟨L, [], dt, ind⟩ d = .ok ⟨L ++ t, [], dt, ind⟩ := by
  unfold intervalRest
  refine okBind_ext
    (appendF_ok_extends (fmtT "Distance: " "distance" " meters") (by decide)
      ⟨L, [], dt, ind⟩ rfl) (fun L1 => ?_)
  refine okBind_ext
    (appendF_ok_extends
      [.lit "Start-End Indices: ", .named "start_index", .lit "-", .named "end_index"]
      (by decide) ⟨L1, [], dt, ind⟩ rfl) (fun L2 => ?_)
  refine okBind_ext (intervalPowerBlock_ext d L2 dt ind) (fun L3 => ?_)
  refine okBind_ext (intervalHrBlock_ext d L3 dt ind) (fun L4 => ?_)
  refine okBind_ext (intervalSpeedBlock_ext d L4 dt ind) (fun L5 => ?_)
  exact intervalElevationBlock_ext d L5 dt ind

theorem groupRest_ext (d : Dict) (dt : Dict) (ind : String) (L : List String) :
    ∃ t, groupRest ⟨L, [], dt, ind⟩ d = .ok ⟨L ++ t, [], dt, ind⟩ := by
  unfold groupRest
  refine okBind_ext
    (append_ok_extends durationFmt (by decide) ⟨L, [], dt, ind⟩
      none .vNull none (.vInt 0) none [] rfl) (fun L1 => ?_)
  refine okBind_ext
    (appendF_ok_extends (fmtT "Distance: " "distance" " meters") (by decide)
      ⟨L1, [], dt, ind⟩ rfl) (fun L2 => ?_)
  refine okBind_ext
    (append_ok_extends
      [.lit "Start-End Indices: ", .named "start_index", .lit "-", .named "end_index"]
      (by decide) ⟨L2, [], dt, ind⟩ none .vNull none (.vInt 0) none [] rfl) (fun L3 => ?_)
  refine okBind_ext
    (append_ok_extends
      [.lit "Power: Avg ", .named "average_watts", .lit " watts (", .named "average_watts_kg", .lit " W/kg), Max ", .named "max_watts", .lit " watts (", .named "max_watts_kg", .lit " W/kg)"]
      (by decide) ⟨L3, [], dt, ind⟩ none .vNull none .vNull
      (some [("average_watts_kg", .vInt 0), ("max_watts_kg", .vInt 0)]) [] rfl) (fun L4 => ?_)
  refine okBind_ext
    (appendF_ok_extends
      [.lit "W. Avg Power: ", .named "weighted_average_watts", .lit " watts, Intensity: ", .named "intensity"]
      (by decide) ⟨L4, [], dt, ind⟩ rfl) (fun L5 => ?_)
  refine okBind_ext
    (appendF_ok_extends
      [.lit "Heart Rate: Avg ", .named "average_heartrate", .lit ", Max ", .named "max_heartrate", .lit " bpm"]
      (by decide) ⟨L5, [], dt, ind⟩ rfl) (fun L6 => ?_)
  refine okBind_ext
    (appendF_ok_extends
      [.lit "Speed: Avg ", .named "average_speed", .lit ", Max ", .named "max_speed", .lit " m/s"]
      (by decide) ⟨L6, [], dt, ind⟩ rfl) (fun L7 => ?_)
  refine okBind_ext
    (appendF_ok_extends
      [.lit "Cadence: Avg ", .named "average_cadence", .lit ", Max ", .named "max_cadence", .lit " rpm"]
      (by decide) ⟨L7, [], dt, ind⟩ rfl) (fun L8 => ?_)
  exact pure_ext L8

/-!  Machinery for the activity-listing pagination theorem (C4). -/

theorem bind_ok_exists {α β : Type} {e : Except PyExc α} {k : α → Except PyExc β}
    (h1 : ∃ a, e = .ok a) (h2 : ∀ a, ∃ b, k a = .ok b) :
    ∃ b, (e >>= k) = .ok b := by
  obtain ⟨a, rfl⟩ := h1
  obtain ⟨b, hb⟩ := h2 a
  exact ⟨b, by rw [ok_bind, hb]⟩

/-- `format_activity_summary` never raises: every template it formats is
spec-free, so every append returns a state. -/
theorem format_activity_summary_ok (activity : Dict) :
    ∃ s, format_activity_summary activity = .ok s := by
  unfold format_activity_summary
  dsimp only
  repeat
    first
    | exact ⟨_, rfl⟩
    | (refine bind_ok_exists (appendF_any_ok _ (by decide) _) fun m => ?_
       try dsimp only)
    | (refine bind_ok_exists (append_any_ok _ (by decide) _ _ _ _ _ _ _) fun m => ?_
       try dsimp only)

/-- The per-activity fold of `_format_activities_response` never raises. -/
theorem activities_foldl_ok (acts : List Val) : ∀ s0 : String,
    ∃ r, acts.foldlM ((fun s a =>
      match a with
      | .vDict d =>
          match format_activity_summary d with
          | .ok t => .ok (s ++ "\n\n" ++ t)
          | .error e => .error e
      | _ => .ok (s ++ "\n\n" ++ "Invalid activity format: " ++ pyStr a)) :
        String → Val → Except PyExc String) s0 = .ok r := by
  induction acts with
  | nil => exact fun s0 => ⟨s0, rfl⟩
  | cons a rest ih =>
      intro s0
      rw [List.foldlM_cons]
      cases a with
      | vDict d =>
          obtain ⟨t, ht⟩ := format_activity_summary_ok d
          dsimp only
          rw [ht]
          dsimp only
          rw [ok_bind]
          exact ih _
      | vNull => dsimp only; rw [ok_bind]; exact ih _
      | vBool b => dsimp only; rw [ok_bind]; exact ih _
      | vInt n => dsimp only; rw [ok_bind]; exact ih _
      | vFloat q => dsimp only; rw [ok_bind]; exact ih _
      | vStr s => dsimp only; rw [ok_bind]; exact ih _
      | vList xs => dsimp only; rw [ok_bind]; exact ih _

/-- `_format_activities_response` never raises. -/
theorem format_response_ok (acts : List Val) (athlete_id : String) (inc : Bool) :
    ∃ s, _format_activities_response acts athlete_id inc = .ok s := by
  unfold _format_activities_response
  by_cases he : acts.isEmpty
  · rw [if_pos he]
    exact ⟨_, rfl⟩
  · rw [if_neg he]
    exact activities_foldl_ok acts "Activities:"

/-- On a list of dict activities, `_filter_named_activities` succeeds and
is the plain filter by the named-activity predicate. -/
theorem filter_named_all_dicts (l : List Val) (h : ∀ v ∈ l, v.isDict = true) :
    _filter_named_activities l = .ok (l.filter keepNamed) := by
  induction l with
  | nil => rfl
  | cons a rest ih =>
      have ha := h a (List.mem_cons_self a rest)
      have ih2 := ih (fun v hv => h v (List.mem_cons_of_mem _ hv))
      cases a with
      | vDict d =>
          simp only [_filter_named_activities]
          rw [ih2, ok_bind]
          by_cases hk : keepNamed (Val.vDict d) <;>
            simp [hk, List.filter_cons, pure, Except.pure]
      | vNull => exact absurd ha (by simp [Val.isDict])
      | vBool b => exact absurd ha (by simp [Val.isDict])
      | vInt n => exact absurd ha (by simp [Val.isDict])
      | vFloat q => exact absurd ha (by simp [Val.isDict])
      | vStr s => exact absurd ha (by simp [Val.isDict])
      | vList xs => exact absurd ha (by simp [Val.isDict])

/-- C4: with `include_unnamed=False`, the first fetch asks for `3*limit`
activities; when the named survivors of the first response fall short of
`limit`, exactly one further fetch is issued, over the window from 60 days
before the original start date to the day before it, and never a second
one; the final selection holds at most `limit` activities, all named. -/
theorem c4_named_pagination_single_backfill
    (l1 l2 : List Val) (athlete_id start_date end_date : String) (limit : Nat)
    (y m d : Nat)
    (ha : athlete_id ≠ "")
    (h1 : ∀ v ∈ l1, v.isDict = true) (hne : l1 ≠ [])
    (h2 : ∀ v ∈ l2, v.isDict = true)
    (hp : parseDate start_date = some (y, m, d))
    (hg : strGe (dateToStr (civilFromDays (daysFromCivil y m d - 60)))
            (dateToStr (civilFromDays (daysFromCivil y m d - 1))) = false) :
    ∃ run, get_activities (.vList l1) (.vList l2) athlete_id start_date end_date limit false =
        .ok run ∧
      run.calls.head? = some ⟨start_date, end_date, limit * 3⟩ ∧
      run.calls.length ≤ 2 ∧
      ((l1.filter keepNamed).length < limit →
        run.calls = [⟨start_date, end_date, limit * 3⟩,
          ⟨dateToStr (civilFromDays (daysFromCivil y m d - 60)),
           dateToStr (civilFromDays (daysFromCivil y m d - 1)), limit * 3⟩]) ∧
      (limit ≤ (l1.filter keepNamed).length →
        run.calls = [⟨start_date, end_date, limit * 3⟩]) ∧
      run.selected.length ≤ limit ∧
      (∀ v ∈ run.selected, keepNamed v = true) := by
  have htr : (Val.vList l1).truthy = true := by
    cases l1 with
    | nil => exact absurd rfl hne
    | cons a as => rfl
  have hparse : _parse_activities_from_result (Val.vList l1) = l1 :=
    List.filter_eq_self.mpr h1
  have hempty : l1.isEmpty = false := by
    cases l1 with
    | nil => exact absurd rfl hne
    | cons a as => rfl
  have hfilt1 := filter_named_all_dicts l1 h1
  have hfilt2 := filter_named_all_dicts l2 h2
  have hfetch : _fetch_more_activities (Val.vList l2) start_date (limit * 3) =
      .ok (l2.filter keepNamed,
        [⟨dateToStr (civilFromDays (daysFromCivil y m d - 60)),
          dateToStr (civilFromDays (daysFromCivil y m d - 1)), limit * 3⟩]) := by
    unfold _fetch_more_activities
    rw [hp]
    dsimp only
    rw [hg, if_neg Bool.false_ne_true]
    rw [hfilt2]
  unfold get_activities
  rw [if_neg ha]
  dsimp only
  rw [show isErrorResult (Val.vList l1) = false from rfl, if_neg Bool.false_ne_true,
    htr, Bool.not_true, if_neg Bool.false_ne_true, hparse, hempty,
    if_neg Bool.false_ne_true, show (!false) = true from rfl, if_pos rfl, if_pos rfl, hfilt1]
  dsimp only
  by_cases hlen : (l1.filter keepNamed).length < limit
  · rw [if_pos hlen, hfetch]
    dsimp only
    obtain ⟨msg, hmsg⟩ := format_response_ok
      (((l1.filter keepNamed) ++ l2.filter keepNamed).take limit) athlete_id false
    rw [hmsg]
    refine ⟨_, rfl, rfl, by simp, fun _ => rfl,
      fun hge => absurd hlen (Nat.not_lt.mpr hge), ?_, ?_⟩
    · simp only [List.length_take]
      omega
    · intro v hv
      have hv2 := List.take_subset limit _ hv
      rcases List.mem_append.mp hv2 with hcase | hcase
      · exact List.of_mem_filter hcase
      · exact List.of_mem_filter hcase
  · rw [if_neg hlen]
    dsimp only
    obtain ⟨msg, hmsg⟩ := format_response_ok
      ((l1.filter keepNamed).take limit) athlete_id false
    rw [hmsg]
    refine ⟨_, rfl, rfl, by simp, fun hlt => absurd hlt hlen,
      fun _ => rfl, ?_, ?_⟩
    · simp only [List.length_take]
      omega
    · intro v hv
      have hv2 := List.take_subset limit _ hv
      exact List.of_mem_filter hv2

/-- Witness for C4: five fetched activities of which three are unnamed
(no name, literal `Unnamed`, or null name) and a requested limit of 5:
the named survivors are 2 < 5, so the backward-window fetch fires. -/
theorem c4_named_pagination_single_backfill_witness :
    ("i1" : String) ≠ "" ∧
    (∀ v ∈ [Val.vDict [("name", Val.vStr "Morning Ride")],
            Val.vDict [("name", Val.vStr "Unnamed")],
            Val.vDict [],
            Val.vDict [("name", Val.vStr "Evening Run")],
            Val.vDict [("name", Val.vNull)]], v.isDict = true) ∧
    ([Val.vDict [("name", Val.vStr "Morning Ride")],
      Val.vDict [("name", Val.vStr "Unnamed")],
      Val.vDict [],
      Val.vDict [("name", Val.vStr "Evening Run")],
      Val.vDict [("name", Val.vNull)]] : List Val) ≠ [] ∧
    (∀ v ∈ [Val.vDict [("name", Val.vStr "Old Ride")]], v.isDict = true) ∧
    parseDate "2024-03-01" = some (2024, 3, 1) ∧
    strGe (dateToStr (civilFromDays (daysFromCivil 2024 3 1 - 60)))
      (dateToStr (civilFromDays (daysFromCivil 2024 3 1 - 1))) = false ∧
    (∃ run, get_activities
        (.vList [Val.vDict [("name", Val.vStr "Morning Ride")],
                 Val.vDict [("name", Val.vStr "Unnamed")],
                 Val.vDict [],
                 Val.vDict [("name", Val.vStr "Evening Run")],
                 Val.vDict [("name", Val.vNull)]])
        (.vList [Val.vDict [("name", Val.vStr "Old Ride")]])
        "i1" "2024-03-01" "2024-03-10" 5 false = .ok run ∧
      run.calls.head? = some ⟨"2024-03-01", "2024-03-10", 5 * 3⟩ ∧
      run.calls.length ≤ 2 ∧
      (((([Val.vDict [("name", Val.vStr "Morning Ride")],
           Val.vDict [("name", Val.vStr "Unnamed")],
           Val.vDict [],
           Val.vDict [("name", Val.vStr "Evening Run")],
           Val.vDict [("name", Val.vNull)]] : List Val).filter keepNamed).length < 5) →
        run.calls = [⟨"2024-03-01", "2024-03-10", 5 * 3⟩,
          ⟨dateToStr (civilFromDays (daysFromCivil 2024 3 1 - 60)),
           dateToStr (civilFromDays (daysFromCivil 2024 3 1 - 1)), 5 * 3⟩]) ∧
      (5 ≤ (([Val.vDict [("name", Val.vStr "Morning Ride")],
              Val.vDict [("name", Val.vStr "Unnamed")],
              Val.vDict [],
              Val.vDict [("name", Val.vStr "Evening Run")],
              Val.vDict [("name", Val.vNull)]] : List Val).filter keepNamed).length →
        run.calls = [⟨"2024-03-01", "2024-03-10", 5 * 3⟩]) ∧
      run.selected.length ≤ 5 ∧
      (∀ v ∈ run.selected, keepNamed v = true)) :=
  ⟨by decide, by decide, by simp, by decide, by decide, by decide,
   c4_named_pagination_single_backfill
     [Val.vDict [("name", Val.vStr "Morning Ride")],
      Val.vDict [("name", Val.vStr "Unnamed")],
      Val.vDict [],
      Val.vDict [("name", Val.vStr "Evening Run")],
      Val.vDict [("name", Val.vNull)]]
     [Val.vDict [("name", Val.vStr "Old Ride")]]
     "i1" "2024-03-01" "2024-03-10" 5 2024 3 1
     (by decide) (by decide) (by simp) (by decide) (by decide) (by decide)⟩

/-- C7 counterexample: a group entry with label `Tempo` and type `Work`;
the section heading line is the literal `Group 1`, which contains neither
the label nor the type, and the composed `[1] Tempo (Work)` string appears
only as the first content line below it. -/
theorem c7_counterexample_group_heading_not_composed :
    formatOneGroup ⟨[], [], [], ""⟩ 1
        (.vDict [("label", .vStr "Tempo"), ("type", .vStr "Work")]) =
      .ok ⟨["Group 1", "[1] Tempo (Work)", "Duration: 0 seconds (moving: 0 seconds)",
            "Start-End Indices: 0-0"], [], [], ""⟩ ∧
    strContains "Group 1" "Tempo" = false ∧
    strContains "Group 1" "Work" = false ∧
    strContains "[1] Tempo (Work)" "Tempo" = true :=
  ⟨rfl, rfl, rfl, rfl⟩

/-- C7 (amended): for every parent state, index and entry map, the
individual-interval section opens with the composed heading
`[i] label (type)` (label falling back to `Interval i`, type to
`Unknown`), followed by the duration line; the interval-group section
instead opens with the literal heading `Group i`, and the composed
`[i] label (type)` string (label falling back to `Group i`) is its first
content line rather than its heading. -/
theorem c7_interval_and_group_section_shapes (st : SecSt) (i : Nat) (d : Dict) :
    (∃ rest, formatOneInterval st i (.vDict d) =
      .ok ⟨st.lines ++ st.headingLines ++
            (if st.lines.length > 0 then [st.indent] else []) ++
            (st.indent ++ intervalHeading i d) ::
            (st.indent ++ ("Duration: " ++ pyStr (dictGetD (stripNone d) "elapsed_time" (.vInt 0)) ++
              " seconds (moving: " ++ pyStr (dictGetD (stripNone d) "moving_time" (.vInt 0)) ++
              " seconds)")) :: rest,
          [], st.data, st.indent⟩) ∧
    (∃ rest, formatOneGroup st i (.vDict d) =
      .ok ⟨st.lines ++ st.headingLines ++
            (if st.lines.length > 0 then [st.indent] else []) ++
            (st.indent ++ ("Group " ++ toString i)) ::
            (st.indent ++ ("[" ++ pyStr (.vInt i) ++ "] " ++
              pyStr (dictGetD (stripNone d) "label" (.vStr ("Group " ++ toString i))) ++ " (" ++
              pyStr (dictGetD (stripNone d) "type" (.vStr "Unknown")) ++ ")")) :: rest,
          [], st.data, st.indent⟩) := by
  constructor
  · unfold formatOneInterval
    rw [show asDict (Val.vDict d) = Except.ok d from rfl, ok_bind]
    dsimp only
    rw [sectionInit_child st (intervalHeading i d) d,
      append_duration_line ⟨[], [st.indent ++ intervalHeading i d], stripNone d, st.indent⟩,
      ok_bind]
    dsimp only
    simp only [List.nil_append, List.singleton_append]
    obtain ⟨T, hT⟩ := intervalRest_ext d (stripNone d) st.indent
      [st.indent ++ intervalHeading i d,
       st.indent ++ ("Duration: " ++ pyStr (dictGetD (stripNone d) "elapsed_time" (.vInt 0)) ++
         " seconds (moving: " ++ pyStr (dictGetD (stripNone d) "moving_time" (.vInt 0)) ++
         " seconds)")]
    rw [hT, ok_bind, sectionExit_eq]
    refine ⟨T, ?_⟩
    by_cases hl : st.lines.length > 0 <;>
      simp [hl, SecSt.appendLines, List.append_assoc, List.cons_append,
        List.nil_append, List.append_nil, List.length_cons, Nat.succ_pos]
  · unfold formatOneGroup
    rw [show asDict (Val.vDict d) = Except.ok d from rfl, ok_bind]
    dsimp only
    rw [sectionInit_child st ("Group " ++ toString i) d,
      append_group_label_line
        ⟨[], [st.indent ++ ("Group " ++ toString i)], stripNone d, st.indent⟩ i,
      ok_bind]
    dsimp only
    simp only [List.nil_append, List.singleton_append]
    obtain ⟨T, hT⟩ := groupRest_ext d (stripNone d) st.indent
      [st.indent ++ ("Group " ++ toString i),
       st.indent ++ ("[" ++ pyStr (.vInt i) ++ "] " ++
         pyStr (dictGetD (stripNone d) "label" (.vStr ("Group " ++ toString i))) ++ " (" ++
         pyStr (dictGetD (stripNone d) "type" (.vStr "Unknown")) ++ ")")]
    rw [hT, ok_bind, sectionExit_eq]
    refine ⟨T, ?_⟩
    by_cases hl : st.lines.length > 0 <;>
      simp [hl, SecSt.appendLines, List.append_assoc, List.cons_append,
        List.nil_append, List.append_nil, List.length_cons, Nat.succ_pos]

/-- C10: a present-but-null field behaves exactly like an absent field, at
section construction and in every append call, because both entry points
strip `None`-valued entries via `process_data`. -/
theorem c10_null_field_equals_absent_field (d : Dict) (k : String) :
    (∀ (lines : Option (List String)) (parent : Option SecSt) (heading : Option String)
        (indentArg : IndentArg),
      sectionInit lines parent heading indentArg (some (dictSet d k .vNull)) =
        sectionInit lines parent heading indentArg (some (dictErase d k))) ∧
    (∀ (s : SecSt) (fmt : List FPart) (valueKey : Option (List String)) (value : Val)
        (noneVal : Val) (defaultsArg : Option Dict) (kwargs : Dict),
      s.append fmt valueKey value (some (dictSet d k .vNull)) noneVal defaultsArg kwargs =
        s.append fmt valueKey value (some (dictErase d k)) noneVal defaultsArg kwargs) := by
  constructor
  · intro lines parent heading indentArg
    unfold sectionInit
    rw [stripNone_set_null]
  · intro s fmt valueKey value noneVal defaultsArg kwargs
    have h1 : appendData s (some (dictSet d k .vNull)) kwargs =
        appendData s (some (dictErase d k)) kwargs := by
      unfold appendData
      simp only [Option.getD_some]
      rw [stripNone_set_null]
    have h2 : appendArgs s valueKey value (some (dictSet d k .vNull)) noneVal kwargs =
        appendArgs s valueKey value (some (dictErase d k)) noneVal kwargs := by
      unfold appendArgs appendValue
      rw [h1]
    unfold SecSt.append
    rw [h1, h2]

/-!  Claim theorems about the tool handlers and the gateway. -/

/-- C1: with an intervals payload that reaches the formatting step (a
truthy dict holding `icu_intervals`) and a well-formed activity response,
`get_activity_intervals` raises `TypeError` instead of returning a string,
because the source passes two positional arguments to the one-parameter
`format_intervals`. -/
theorem c1_get_activity_intervals_raises_type_error :
    get_activity_intervals "123"
        (.vDict [("icu_intervals", .vList [.vDict [("label", .vStr "Rep 1")]])])
        (.vDict [("type", .vStr "Ride")]) =
      .error (.typeError "format_intervals() takes 1 positional argument but 2 were given") := rfl

/-- C2: on the wellness entry of the claim, the formatter emits
`Fitness (CTL): 70` but never emits the sleep-hours line: the
`sleepHours` value is written into the caller's dict only after the
Sleep & Recovery section has copied its data, so the `Sleep:` append
fails its key lookup and is dropped. -/
theorem c2_wellness_sleep_line_is_dropped :
    format_wellness_entry [("ctl", .vInt 70), ("sleepSecs", .vInt 28800), ("weight", .vInt 70)] =
      .ok "Training Metrics:\n- Fitness (CTL): 70\n\nVital Signs:\n- Weight: 70 kg\n\nStatus: Unlocked" ∧
    strContains
      "Training Metrics:\n- Fitness (CTL): 70\n\nVital Signs:\n- Weight: 70 kg\n\nStatus: Unlocked"
      "Fitness (CTL): 70" = true ∧
    strContains
      "Training Metrics:\n- Fitness (CTL): 70\n\nVital Signs:\n- Weight: 70 kg\n\nStatus: Unlocked"
      "8.0 hours" = false ∧
    strContains
      "Training Metrics:\n- Fitness (CTL): 70\n\nVital Signs:\n- Weight: 70 kg\n\nStatus: Unlocked"
      "Sleep:" = false :=
  ⟨rfl, by decide, by decide, by decide⟩

/-- C3 counterexample: a 401 response whose body is not valid JSON is
reported as `Invalid JSON in response` with no `status_code` field,
because the body is parsed before `raise_for_status` runs. -/
theorem c3_counterexample_non_json_401_body :
    (make_intervals_request "K" (.resp 401 true none "Unauthorized") none).1 =
      .vDict [("error", .vBool true), ("message", .vStr "Invalid JSON in response")] ∧
    hasKeyV (make_intervals_request "K" (.resp 401 true none "Unauthorized") none).1
      "status_code" = false :=
  ⟨rfl, rfl⟩

/-- C3 (amended): for a 401 response whose body is empty or parses as
JSON, the gateway returns the static Unauthorized message with
`status_code` 401, whatever the body text is. -/
theorem c3_amended_401_yields_table_message (globalKey : String) (hasContent : Bool)
    (json : Option Val) (text : String) (api_key : Option String)
    (hkey : api_key.getD globalKey ≠ "")
    (hbody : hasContent = false ∨ ∃ v, json = some v) :
    make_intervals_request globalKey (.resp 401 hasContent json text) api_key =
      (.vDict [("error", .vBool true), ("status_code", .vInt 401),
               ("message", .vStr "401 Unauthorized: Please check your API key.")],
       some (api_key.getD globalKey)) := by
  rcases hbody with hb | ⟨v, hb⟩ <;> subst hb <;> cases api_key <;> (try cases hasContent) <;>
    simp_all [make_intervals_request, _get_error_message, Option.getD]

/-- Witness for the amended C3 theorem. -/
theorem c3_amended_401_yields_table_message_witness :
    make_intervals_request "KEY" (.resp 401 true (some (.vDict [])) "irrelevant body") none =
      (.vDict [("error", .vBool true), ("status_code", .vInt 401),
               ("message", .vStr "401 Unauthorized: Please check your API key.")],
       some "KEY") :=
  c3_amended_401_yields_table_message "KEY" true (some (.vDict [])) "irrelevant body" none
    (by decide) (Or.inr ⟨_, rfl⟩)

/-- C8: the key resolves to the per-call override when supplied, else the
process-wide key; an empty resolved key (including an explicit empty
override) short-circuits with the key-required record and no request,
while a nonempty key is the basic-auth password of the issued request. -/
theorem c8_key_resolution_and_short_circuit (globalKey : String) (outcome : HttpOutcome)
    (api_key : Option String) :
    ((api_key.getD globalKey) = "" →
      make_intervals_request globalKey outcome api_key =
        (.vDict [("error", .vBool true),
                 ("message", .vStr "API key is required. Set API_KEY env var or pass api_key")],
         none)) ∧
    ((api_key.getD globalKey) ≠ "" →
      (make_intervals_request globalKey outcome api_key).2 = some (api_key.getD globalKey)) := by
  constructor
  · intro h
    cases api_key <;> simp_all [make_intervals_request, Option.getD]
  · intro h
    cases api_key <;>
      simp only [Option.getD_none, Option.getD_some] at h ⊢ <;>
      cases outcome <;>
      simp only [make_intervals_request, if_neg h] <;>
      (try split) <;>
      (try split) <;>
      rfl

/-- Witness for C8: an explicitly supplied empty-string override yields
the key-required record without any request, even with a nonempty
process-wide key. -/
theorem c8_key_resolution_and_short_circuit_witness :
    make_intervals_request "GLOBALKEY" (.resp 200 true (some (.vDict [])) "") (some "") =
      (.vDict [("error", .vBool true),
               ("message", .vStr "API key is required. Set API_KEY env var or pass api_key")],
       none) :=
  (c8_key_resolution_and_short_circuit "GLOBALKEY" (.resp 200 true (some (.vDict [])) "")
    (some "")).1 rfl

/-- C9 counterexample: a map whose first list value contains no dict
elements, but which carries the `name` key, is normalized to the whole
map as a singleton rather than to the (empty) element list of its first
list value. -/
theorem c9_counterexample_bare_map_with_list :
    _parse_activities_from_result (.vDict [("name", .vStr "x"), ("items", .vList [.vInt 1])]) =
      [.vDict [("name", .vStr "x"), ("items", .vList [.vInt 1])]] ∧
    ([Val.vDict [("name", .vStr "x"), ("items", .vList [.vInt 1])]] : List Val) ≠ [] :=
  ⟨rfl, by simp⟩

/-- C9 (amended): a list yields its dict elements; a dict with a
list-valued entry yields the dict elements of the first such entry,
except that when that extraction is empty and the dict carries one of
`name`/`startTime`/`distance`, the dict itself is returned as a
singleton; a dict with no list value uses the same key heuristic; any
other value yields the empty list. -/
theorem c9_amended_parse_activities_normalization :
    (∀ (items : List Val) (v : Val),
      v ∈ _parse_activities_from_result (.vList items) ↔ (v ∈ items ∧ v.isDict = true)) ∧
    (∀ (pfx : Dict) (k : String) (xs : List Val) (suf : Dict),
      (∀ p ∈ pfx, p.2.isList = false) →
      _parse_activities_from_result (.vDict (pfx ++ (k, .vList xs) :: suf)) =
        (if (xs.filter Val.isDict).isEmpty &&
            (dictHasKey (pfx ++ (k, .vList xs) :: suf) "name" ||
             dictHasKey (pfx ++ (k, .vList xs) :: suf) "startTime" ||
             dictHasKey (pfx ++ (k, .vList xs) :: suf) "distance")
         then [.vDict (pfx ++ (k, .vList xs) :: suf)]
         else xs.filter Val.isDict)) ∧
    (∀ entries : Dict, (∀ p ∈ entries, p.2.isList = false) →
      _parse_activities_from_result (.vDict entries) =
        (if dictHasKey entries "name" || dictHasKey entries "startTime" ||
            dictHasKey entries "distance"
         then [.vDict entries] else [])) ∧
    (∀ v : Val, v.isList = false → v.isDict = false →
      _parse_activities_from_result v = []) := by
  refine ⟨?_, ?_, ?_, ?_⟩
  · intro items v
    simp [_parse_activities_from_result, List.mem_filter]
  · intro pfx k xs suf hp
    have h1 : pfx.find? (fun p => p.2.isList) = none :=
      List.find?_eq_none.mpr (fun p hpm => by simp [hp p hpm])
    have hfind : (pfx ++ (k, Val.vList xs) :: suf).find? (fun p => p.2.isList) =
        some (k, .vList xs) := by
      rw [List.find?_append, h1]
      simp [List.find?_cons, Val.isList]
    simp only [_parse_activities_from_result, hfind]
  · intro entries hp
    have h1 : entries.find? (fun p => p.2.isList) = none :=
      List.find?_eq_none.mpr (fun p hpm => by simp [hp p hpm])
    simp only [_parse_activities_from_result, h1]
    simp
  · intro v h1 h2
    cases v <;> simp_all [_parse_activities_from_result, Val.isList, Val.isDict]

/-- Witness for the amended C9 theorem: a dict wrapping a list of one
dict activity under an arbitrary key normalizes to that element list. -/
theorem c9_amended_parse_activities_normalization_witness :
    _parse_activities_from_result
        (.vDict [("name", .vStr "racing"), ("items", .vList [.vDict [("id", .vInt 5)]])]) =
      [.vDict [("id", .vInt 5)]] := by
  have h := c9_amended_parse_activities_normalization.2.1
    [("name", .vStr "racing")] "items" [.vDict [("id", .vInt 5)]] []
    (by
      intro p hp
      rcases List.mem_singleton.mp hp with rfl
      rfl)
  simpa using h

end Icu